import Mathlib

/-!
Verification of the batting-pose analysis core of `backend_deploy/server.py`.

This file shallowly embeds the keypoint-geometry evaluation pipeline of the
`analyze_pose` endpoint (confidence gating, scale normalisation,
handedness-aware joint selection, the ten threshold rules and the feedback
aggregation) and proves or refutes the frozen claims about it.

Modelling conventions:
* Python floats are modelled as exact rationals (`ℚ`) — every float value is a
  rational number; `math.hypot`, `math.acos` and `math.degrees` force the
  results of the geometric primitives into `ℝ`.
* A keypoint map (the result of `to_kp_map`) is modelled as the underlying
  association list, where a later binding of a name overrides an earlier one,
  exactly like Python dict insertion.
* The LLM call inside `coach_rewrite` is an external collaborator; it is
  modelled by an `Option (String × String)` argument: `some (p, i)` stands for
  a successful chat completion whose JSON parse produced the strings `p` and
  `i`, and `none` stands for any exception raised inside the `try` block.
-/

set_option maxHeartbeats 1000000

open scoped Classical

noncomputable section

/-- A keypoint as stored in the name-indexed map built by `to_kp_map`:
`kp.score or 0.0` means a missing score is replaced by `0.0`, so the stored
score is always a number. -/
structure KP where
  x : ℚ
  y : ℚ
  score : ℚ
deriving DecidableEq

/-- The `KeypointItem` pydantic model: `name`, `x`, `y`, optional `score`. -/
structure KeypointItem where
  name : String
  x : ℚ
  y : ℚ
  score : Option ℚ

/-- A frame: the name → keypoint dictionary, represented by its underlying
association list (later entries override earlier ones). -/
abbrev Frame := List (String × KP)

/-- `to_kp_map`: builds the name-indexed dict entry per keypoint, with `x`,
`y` and `score` fields, where a missing score becomes `kp.score or 0.0`. -/
def to_kp_map (kps : List KeypointItem) : Frame :=
  kps.map fun kp => (kp.name, ⟨kp.x, kp.y, kp.score.getD 0⟩)

/-- Dictionary lookup `m[name]` / `name in m`: the last binding of a name wins,
matching Python dict assignment order. -/
def kpLookup : Frame → String → Option KP
  | [], _ => none
  | (k, v) :: rest, n =>
    match kpLookup rest n with
    | some r => some r
    | none => if k = n then some v else none

/-- Total lookup used for the subscript accesses `m[name]` that the gates
guarantee to succeed (see claim C10); the default is never reached on
gate-passing frames. -/
def kget (m : Frame) (n : String) : KP := (kpLookup m n).getD ⟨0, 0, 0⟩

/-- `math.hypot dx dy`. -/
def hypot (dx dy : ℚ) : ℝ := Real.sqrt ((dx : ℝ) ^ 2 + (dy : ℝ) ^ 2)

/-- `calculate_angle(ax, ay, bx, by, cx, cy)`: angle ABC in degrees at point B
between the A−B and C−B vectors; `0.0` when either vector has zero length;
the cosine is clamped to `[-1, 1]` before `acos`; `math.degrees r = r * (180 / π)`. -/
def calculate_angle (ax ay bx b_y cx cy : ℚ) : ℝ :=
  let BAx := ax - bx
  let BAy := ay - b_y
  let BCx := cx - bx
  let BCy := cy - b_y
  let dot := BAx * BCx + BAy * BCy
  let magBA := hypot BAx BAy
  let magBC := hypot BCx BCy
  if magBA = 0 ∨ magBC = 0 then 0.0
  else
    let cosv := (dot : ℝ) / (magBA * magBC)
    let cosv2 := max (min cosv 1.0) (-1.0)
    Real.arccos cosv2 * (180 / Real.pi)

/-- `score_ok(m, name, min_score)`: `name in m and (m[name].get("score", 0.0) >= min_score)`. -/
def score_ok (m : Frame) (name : String) (min_score : ℚ) : Bool :=
  match kpLookup m name with
  | some kp => decide (min_score ≤ kp.score)
  | none => false

/-- `all_scores_ok(m, names, min_score)`: the list of names failing
`score_ok`, in order. -/
def all_scores_ok (m : Frame) (names : List String) (min_score : ℚ) : List String :=
  match names with
  | [] => []
  | n :: rest =>
    if score_ok m n min_score then all_scores_ok m rest min_score
    else n :: all_scores_ok m rest min_score

/-- `shoulder_width(m)`: `abs(m["right_shoulder"]["x"] - m["left_shoulder"]["x"]) or None`
when both shoulders are present, else `None`.  Python’s `or` turns a zero
width into `None`. -/
def shoulder_width (m : Frame) : Option ℚ :=
  match kpLookup m "left_shoulder", kpLookup m "right_shoulder" with
  | some ls, some rs => if |rs.x - ls.x| = 0 then none else some |rs.x - ls.x|
  | _, _ => none

/-- `angle(m, a, b, c)`. -/
def angle (m : Frame) (a b c : String) : ℝ :=
  calculate_angle (kget m a).x (kget m a).y (kget m b).x (kget m b).y
    (kget m c).x (kget m c).y

/-- `norm_dist(dx, dy, sw)`: `None` when the scale is falsy (zero), else
`hypot(dx, dy) / sw`. -/
def norm_dist (dx dy : ℚ) (sw : ℚ) : Option ℝ :=
  if sw = 0 then none else some (hypot dx dy / (sw : ℝ))

/-- The six handedness-resolved role names. -/
structure Roles where
  back_sh : String
  back_el : String
  back_wr : String
  front_sh : String
  front_el : String
  front_wr : String
deriving DecidableEq

/-- Python `str.lower()` (ASCII case mapping suffices for the handedness
strings this endpoint receives). -/
def pyLower (s : String) : String := ⟨s.data.map Char.toLower⟩

/-- Python `str.strip()`: remove leading and trailing whitespace. -/
def pyStrip (s : String) : String :=
  ⟨((s.data.dropWhile Char.isWhitespace).reverse.dropWhile Char.isWhitespace).reverse⟩

/-- Python `s.startswith(p)`. -/
def pyStartswith (s p : String) : Bool := p.data.isPrefixOf s.data

/-- `hand = (body.handedness or "right").lower().strip()`; the hitter is
left-handed iff `hand.startswith("l")`. -/
def resolve_hand (handedness : String) : Bool :=
  pyStartswith (pyStrip (pyLower (if handedness = "" then "right" else handedness))) "l"

/-- The role → keypoint-name binding from the handedness branch. -/
def rolesOf (isLeft : Bool) : Roles :=
  if isLeft then
    ⟨"left_shoulder", "left_elbow", "left_wrist",
     "right_shoulder", "right_elbow", "right_wrist"⟩
  else
    ⟨"right_shoulder", "right_elbow", "right_wrist",
     "left_shoulder", "left_elbow", "left_wrist"⟩

/-- `required = [front_sh, back_sh, front_wr, back_wr]`. -/
def requiredNames (R : Roles) : List String :=
  [R.front_sh, R.back_sh, R.front_wr, R.back_wr]

/-- `add_imp` message formatting: `part ++ ": " ++ issue ++ " — " ++ advice`. -/
def mkImp (part issue advice : String) : String :=
  part ++ ": " ++ issue ++ " — " ++ advice

def msg_pos_grip : String :=
  "Grip: hands look reasonably compact/stacked (good for quickness)."

def msg_pos_hand_set : String :=
  "Hand set: hands are fairly close to the back shoulder (compact/quick)."

def msg_pos_drift : String :=
  "Hands: not drifting too far away from your torso line (good)."

def msg_pos_slot : String :=
  "Back elbow: looks in a good slot (not flying, not pinned)."

def msg_pos_back_arm : String :=
  "Back arm: comfortable bend (good for a quick/compact launch)."

def msg_pos_front_arm : String :=
  "Front arm: not locked out (good)."

def msg_pos_triangle : String :=
  "Compact triangle: back elbow stays reasonably close (fast hands setup)."

def msg_pos_level : String :=
  "Shoulders: fairly level (good foundation)."

def msg_pos_ref : String :=
  "Reference match: hands are at least as compact as the reference (nice)."

def msg_imp_elbow_vis : String :=
  mkImp "Visibility" "elbows not clearly visible"
    "Try better lighting and keep both elbows in frame for more accurate feedback."

def msg_imp_grip : String :=
  mkImp "Hands (Grip)" "hands too far apart"
    "Bring your hands closer together (stacked grip). Compact hands = quicker to the ball."

def msg_imp_hand_set : String :=
  mkImp "Hand Set (Compact)" "hands set too far from back shoulder"
    "Move your hands closer to your back shoulder. Compact hand set helps you get to the ball faster."

def msg_imp_drift : String :=
  mkImp "Hand Set (Compact)" "hands drifting away from torso"
    "Keep hands closer to your chest/back shoulder line for a quick, compact move."

def msg_imp_slot_high : String :=
  mkImp "Back Elbow" "back elbow too high (flying)"
    "Lower the back elbow slightly into the slot. Too high can make you longer to the ball."

def msg_imp_slot_low : String :=
  mkImp "Back Elbow" "back elbow too low"
    "Raise the back elbow a bit. Keep it relaxed and ready — not pinned down."

def msg_imp_back_straight : String :=
  mkImp "Back Arm" "back arm too straight"
    "Relax the back arm; keep a soft bend so you can launch quickly."

def msg_imp_back_collapsed : String :=
  mkImp "Back Arm" "back arm too collapsed"
    "Open your back elbow slightly. Too tight can restrict a quick turn."

def msg_imp_front_locked : String :=
  mkImp "Front Arm" "front arm locked out"
    "Soften the front elbow a bit. A relaxed front arm helps you stay compact."

def msg_imp_front_tucked : String :=
  mkImp "Front Arm" "front arm too tucked"
    "Give the front arm a little room. Don’t let it collapse tight into the body."

def msg_imp_triangle : String :=
  mkImp "Compact Triangle" "back elbow drifting away"
    "Keep the back elbow closer to the body/shoulder. Compact triangle = faster hands."

def msg_imp_level : String :=
  mkImp "Shoulders" "shoulders not level"
    "Try to keep shoulders more level. Big tilt can change your swing path and timing."

def msg_imp_ref : String :=
  mkImp "Reference Match" "hands set farther than reference"
    "Bring hands closer to the back shoulder to match the compact reference."

def msg_fill_pos : String :=
  "You’re in frame and the camera is tracking. Good start — now let’s tighten the setup."

def msg_fill_imp : String :=
  "All good: compact upper-body setup looks solid — keep hands quiet near the back shoulder and stay quick/compact."

def msg_default_pos : String :=
  "Nice work — you’re in a good setup."

def msg_default_imp : String :=
  "Hold that stance and say Start when you’re ready."

/-- `hands_x = (live[back_wr]["x"] + live[front_wr]["x"]) / 2.0`. -/
def hands_x (live : Frame) (R : Roles) : ℚ :=
  ((kget live R.back_wr).x + (kget live R.front_wr).x) / 2

/-- `hands_y = (live[back_wr]["y"] + live[front_wr]["y"]) / 2.0`. -/
def hands_y (live : Frame) (R : Roles) : ℚ :=
  ((kget live R.back_wr).y + (kget live R.front_wr).y) / 2

/-- `hand_to_back_sh = norm_dist(hands_x - live[back_sh]["x"], hands_y - live[back_sh]["y"], live_sw)`. -/
def hand_to_back_sh (live : Frame) (R : Roles) (live_sw : ℚ) : Option ℝ :=
  norm_dist (hands_x live R - (kget live R.back_sh).x)
    (hands_y live R - (kget live R.back_sh).y) live_sw

/-- Elbow-visibility check (rule 0): an improvement is recorded when
`all_scores_ok(live, [front_el, back_el], 0.30)` is non-empty. -/
def rule0_elbow_vis (live : Frame) (R : Roles) : List String :=
  if all_scores_ok live [R.front_el, R.back_el] 0.30 ≠ [] then [msg_imp_elbow_vis]
  else []

/-- Rule 1, hands compact: wrist separation normalised by shoulder width. -/
def rule1_grip (live : Frame) (R : Roles) (live_sw : ℚ) : List String × List String :=
  let wrist_dx := (kget live R.back_wr).x - (kget live R.front_wr).x
  let wrist_dy := (kget live R.back_wr).y - (kget live R.front_wr).y
  match norm_dist wrist_dx wrist_dy live_sw with
  | none => ([], [])
  | some wrist_sep =>
    if wrist_sep ≤ 0.45 then ([msg_pos_grip], [])
    else ([], [msg_imp_grip])

/-- Rule 2, hands near back shoulder. -/
def rule2_hand_set (live : Frame) (R : Roles) (live_sw : ℚ) : List String × List String :=
  match hand_to_back_sh live R live_sw with
  | none => ([], [])
  | some d =>
    if d ≤ 0.90 then ([msg_pos_hand_set], [])
    else ([], [msg_imp_hand_set])

/-- Rule 3, forward drift from the shoulder midpoint (plain quotient, not
`norm_dist`). -/
def rule3_drift (live : Frame) (R : Roles) (live_sw : ℚ) : List String × List String :=
  let mid_sh_x := ((kget live "left_shoulder").x + (kget live "right_shoulder").x) / 2
  let forward_drift := |hands_x live R - mid_sh_x| / live_sw
  if forward_drift ≤ 0.90 then ([msg_pos_drift], [])
  else ([], [msg_imp_drift])

/-- Rule 4, back-elbow slot; the two improvement branches are appended by two
independent `if`s in the source. -/
def rule4_slot (live : Frame) (R : Roles) (live_sw : ℚ) : List String × List String :=
  if score_ok live R.back_el 0.30 then
    let el_height := ((kget live R.back_sh).y - (kget live R.back_el).y) / live_sw
    if -0.35 ≤ el_height ∧ el_height ≤ 0.10 then ([msg_pos_slot], [])
    else ([], (if el_height > 0.10 then [msg_imp_slot_high] else []) ++
              (if el_height < -0.35 then [msg_imp_slot_low] else []))
  else ([], [])

/-- Rule 5, back-arm bend angle. -/
def rule5_back_arm (live : Frame) (R : Roles) : List String × List String :=
  if score_ok live R.back_el 0.30 then
    let back_elbow_ang := angle live R.back_sh R.back_el R.back_wr
    if 65 ≤ back_elbow_ang ∧ back_elbow_ang ≤ 150 then ([msg_pos_back_arm], [])
    else if back_elbow_ang > 150 then ([], [msg_imp_back_straight])
    else ([], [msg_imp_back_collapsed])
  else ([], [])

/-- Rule 6, front-arm bend angle. -/
def rule6_front_arm (live : Frame) (R : Roles) : List String × List String :=
  if score_ok live R.front_el 0.30 then
    let front_elbow_ang := angle live R.front_sh R.front_el R.front_wr
    if 60 ≤ front_elbow_ang ∧ front_elbow_ang ≤ 155 then ([msg_pos_front_arm], [])
    else if front_elbow_ang > 155 then ([], [msg_imp_front_locked])
    else ([], [msg_imp_front_tucked])
  else ([], [])

/-- Rule 7, compact triangle: back elbow to back shoulder distance. -/
def rule7_triangle (live : Frame) (R : Roles) (live_sw : ℚ) : List String × List String :=
  if score_ok live R.back_el 0.30 then
    match norm_dist ((kget live R.back_el).x - (kget live R.back_sh).x)
        ((kget live R.back_el).y - (kget live R.back_sh).y) live_sw with
    | none => ([], [])
    | some d =>
      if d ≤ 0.85 then ([msg_pos_triangle], [])
      else ([], [msg_imp_triangle])
  else ([], [])

/-- Rule 8, shoulder level: raw-pixel threshold 25, not normalised. -/
def rule8_level (live : Frame) : List String × List String :=
  let diff := (kget live "left_shoulder").y - (kget live "right_shoulder").y
  if |diff| ≤ 25 then ([msg_pos_level], [])
  else ([], [msg_imp_level])

/-- The `math.hypot(...) / sw` hand-midpoint-to-back-shoulder distance used by
the reference comparison (lines 645–646), applied to either frame. -/
def h_dist (m : Frame) (R : Roles) (sw : ℚ) : ℝ :=
  hypot (hands_x m R - (kget m R.back_sh).x) (hands_y m R - (kget m R.back_sh).y) / (sw : ℝ)

/-- Rule 9, optional reference comparison.  Runs only when the ref dict is
non-empty, its shoulder width is truthy, and all four required ref joints pass
the 0.30 check. -/
def rule9_ref (live ref : Frame) (R : Roles) (live_sw : ℚ) : List String × List String :=
  match ref with
  | [] => ([], [])
  | _ :: _ =>
    match shoulder_width ref with
    | none => ([], [])
    | some ref_sw =>
      if all_scores_ok ref (requiredNames R) 0.30 = [] then
        let live_h_dist := h_dist live R live_sw
        let ref_h_dist := h_dist ref R ref_sw
        if |live_h_dist - ref_h_dist| > 0.20 then
          if live_h_dist > ref_h_dist then ([], [msg_imp_ref])
          else ([msg_pos_ref], [])
        else ([], [])
      else ([], [])

/-- The raw `(positives, improvements)` lists produced by the rule evaluator
(lines 549–652), in source append order. -/
def ruleLists (live ref : Frame) (R : Roles) (live_sw : ℚ) : List String × List String :=
  let r1 := rule1_grip live R live_sw
  let r2 := rule2_hand_set live R live_sw
  let r3 := rule3_drift live R live_sw
  let r4 := rule4_slot live R live_sw
  let r5 := rule5_back_arm live R
  let r6 := rule6_front_arm live R
  let r7 := rule7_triangle live R live_sw
  let r8 := rule8_level live
  let r9 := rule9_ref live ref R live_sw
  (r1.1 ++ r2.1 ++ r3.1 ++ r4.1 ++ r5.1 ++ r6.1 ++ r7.1 ++ r8.1 ++ r9.1,
   rule0_elbow_vis live R ++ r1.2 ++ r2.2 ++ r3.2 ++ r4.2 ++ r5.2 ++ r6.2 ++
     r7.2 ++ r8.2 ++ r9.2)

/-- Gate 3’s test: `hand_to_back_sh is not None and hand_to_back_sh > 1.25`. -/
def gate3_exceeds (live : Frame) (R : Roles) (live_sw : ℚ) : Prop :=
  match hand_to_back_sh live R live_sw with
  | some d => d > 1.25
  | none => False

/-- Result of the gating pipeline and rule evaluator, before default-filling
and rewrite. -/
inductive Outcome where
  | gate1 : Outcome
  | gate2 : Outcome
  | gate3 : Outcome
  | lists : List String × List String → Outcome
deriving DecidableEq

/-- Gates 1–3 and the rule evaluator of `analyze_pose`, producing either a
gate verdict or the raw observation lists. -/
def analyzeCore (handedness : String) (live ref : Frame) : Outcome :=
  let R := rolesOf (resolve_hand handedness)
  match shoulder_width live with
  | none => Outcome.gate1
  | some live_sw =>
    if all_scores_ok live (requiredNames R) 0.35 ≠ [] then Outcome.gate1
    else if live_sw < 40 then Outcome.gate2
    else if gate3_exceeds live R live_sw then Outcome.gate3
    else Outcome.lists (ruleLists live ref R live_sw)

/-- The final JSON payload shape: `Positives`/`Improvements`, each with an
`issue` and an `advice` string. -/
structure Bundle where
  positives_issue : String
  positives_advice : String
  improvements_issue : String
  improvements_advice : String
deriving DecidableEq

/-- Gate 1’s canned bundle. -/
def gate1Bundle : Bundle :=
  ⟨"not enough reliable joints yet", "No worries — you’re getting set up.",
   "upper-body joints not confidently detected",
   "I need to clearly see both shoulders and both wrists. Step back, raise the camera slightly, and keep your arms in frame."⟩

/-- Gate 2’s canned bundle. -/
def gate2Bundle : Bundle :=
  ⟨"camera is running", "Good — I can see you, but not enough of your upper body yet.",
   "too much cropping / too far away",
   "Move closer OR adjust framing so your shoulders and wrists are clearly visible."⟩

/-- Gate 3’s canned bundle. -/
def gate3Bundle : Bundle :=
  ⟨"you’re in frame", "Nice — I can see you clearly.",
   "not in batting setup yet",
   "Get into your batting stance and set your hands near your back shoulder. Stand sideways to the camera with the webcam in front of you pointed at your chest, then say Start or Go."⟩

/-- `coach_rewrite`.  The `llm` argument models the external chat completion
plus JSON parse: `some (p, i)` is a successful parse yielding the two raw
strings, `none` is any exception inside the `try` block, which lands in the
`except` fallback using the first raw list entries. -/
def coach_rewrite (llm : Option (String × String)) (positives improvements : List String) :
    String × String :=
  match llm with
  | some (p, i) =>
    ((if p.trim = "" then msg_default_pos else p.trim),
     (if i.trim = "" then msg_default_imp else i.trim))
  | none =>
    ((match positives with | [] => msg_default_pos | p :: _ => p),
     (match improvements with | [] => msg_default_imp | i :: _ => i))

/-- Default-filling (lines 654–657): a generic encouragement is appended when
`positives` ends empty, a generic "all good" message when `improvements` does. -/
def fillDefaults (PI : List String × List String) : List String × List String :=
  (if PI.1 = [] then PI.1 ++ [msg_fill_pos] else PI.1,
   if PI.2 = [] then PI.2 ++ [msg_fill_imp] else PI.2)

/-- The full `analyze_pose` computation on already-built frames: gates, rules,
default-filling of empty lists, rewrite, and final bundle assembly. -/
def analyze_pose (llm : Option (String × String)) (handedness : String)
    (live ref : Frame) : Bundle :=
  match analyzeCore handedness live ref with
  | Outcome.gate1 => gate1Bundle
  | Outcome.gate2 => gate2Bundle
  | Outcome.gate3 => gate3Bundle
  | Outcome.lists PI =>
    let filled := fillDefaults PI
    let rewritten := coach_rewrite llm filled.1 filled.2
    ⟨"Good job", rewritten.1, "One thing to work on", rewritten.2⟩

/-- All three gates pass (the evaluation reaches the rule section). -/
def gatesPass (handedness : String) (live : Frame) : Prop :=
  ∃ w, shoulder_width live = some w ∧
    all_scores_ok live (requiredNames (rolesOf (resolve_hand handedness))) 0.35 = [] ∧
    ¬ w < 40 ∧ ¬ gate3_exceeds live (rolesOf (resolve_hand handedness)) w

/-- Gate 1’s failure condition: `not live_sw or missing_conf` — an undefined
(or zero, already folded to `None`) shoulder width, or a required joint below
the 0.35 hard threshold. -/
def gate1Fails (handedness : String) (live : Frame) : Prop :=
  shoulder_width live = none ∨
    all_scores_ok live (requiredNames (rolesOf (resolve_hand handedness))) 0.35 ≠ []

/-- Gate 2’s failure condition: defined shoulder width below 40. -/
def gate2Fails (live : Frame) : Prop :=
  ∃ w, shoulder_width live = some w ∧ w < 40

/-- Gate 3’s failure condition: normalised hand-midpoint-to-back-shoulder
distance defined and above 1.25. -/
def gate3Fails (handedness : String) (live : Frame) : Prop :=
  ∃ w, shoulder_width live = some w ∧
    gate3_exceeds live (rolesOf (resolve_hand handedness)) w

/-- Swap `left_*` ↔ `right_*` over the keypoint names of the upstream
(COCO-17) pose model. -/
def swapName (n : String) : String :=
  if n = "left_shoulder" then "right_shoulder"
  else if n = "right_shoulder" then "left_shoulder"
  else if n = "left_elbow" then "right_elbow"
  else if n = "right_elbow" then "left_elbow"
  else if n = "left_wrist" then "right_wrist"
  else if n = "right_wrist" then "left_wrist"
  else if n = "left_eye" then "right_eye"
  else if n = "right_eye" then "left_eye"
  else if n = "left_ear" then "right_ear"
  else if n = "right_ear" then "left_ear"
  else if n = "left_hip" then "right_hip"
  else if n = "right_hip" then "left_hip"
  else if n = "left_knee" then "right_knee"
  else if n = "right_knee" then "left_knee"
  else if n = "left_ankle" then "right_ankle"
  else if n = "right_ankle" then "left_ankle"
  else n

/-- Mirror a frame: rename every keypoint by `swapName`. -/
def swapFrame (m : Frame) : Frame := m.map fun p => (swapName p.1, p.2)

/-- Apply `swapName` to all six role names. -/
def swapRoles (R : Roles) : Roles :=
  ⟨swapName R.back_sh, swapName R.back_el, swapName R.back_wr,
   swapName R.front_sh, swapName R.front_el, swapName R.front_wr⟩

/-- Scale a keypoint’s coordinates by `k`, leaving the confidence unchanged. -/
def scaleKP (k : ℚ) (kp : KP) : KP := ⟨k * kp.x, k * kp.y, kp.score⟩

/-- Scale all coordinates of a frame by `k` (confidences unchanged). -/
def scaleFrame (k : ℚ) (m : Frame) : Frame := m.map fun p => (p.1, scaleKP k p.2)

/-- Gate-passing witness frame: a right-handed setup on the x-axis with
shoulder width 100, compact hands near the back shoulder and straight arms. -/
def Wlive : Frame :=
  [("left_shoulder", ⟨0, 0, 1⟩), ("right_shoulder", ⟨100, 0, 1⟩),
   ("right_wrist", ⟨120, 0, 1⟩), ("left_wrist", ⟨130, 0, 1⟩),
   ("right_elbow", ⟨110, 0, 1⟩), ("left_elbow", ⟨50, 0, 1⟩)]

/-- `Wlive` with the front (left) elbow at confidence 0.1: one elbow below the
0.30 soft threshold, the other at full confidence. -/
def WlowElbow : Frame :=
  [("left_shoulder", ⟨0, 0, 1⟩), ("right_shoulder", ⟨100, 0, 1⟩),
   ("right_wrist", ⟨120, 0, 1⟩), ("left_wrist", ⟨130, 0, 1⟩),
   ("right_elbow", ⟨110, 0, 1⟩), ("left_elbow", ⟨50, 0, 0.1⟩)]

/-- A fully-confident reference frame whose hands sit 0.65 shoulder widths
from the back shoulder (looser than `Wlive`’s 0.25). -/
def Wref : Frame :=
  [("left_shoulder", ⟨0, 0, 1⟩), ("right_shoulder", ⟨100, 0, 1⟩),
   ("right_wrist", ⟨160, 0, 1⟩), ("left_wrist", ⟨170, 0, 1⟩)]

/-- Gate-passing frame with a 20-pixel shoulder tilt (for the rule-8 scale
asymmetry). -/
def Wtilt : Frame :=
  [("left_shoulder", ⟨0, 0, 1⟩), ("right_shoulder", ⟨100, 20, 1⟩),
   ("right_wrist", ⟨120, 20, 1⟩), ("left_wrist", ⟨130, 20, 1⟩)]

/-- A frame failing gate 1 (no wrists) and gate 2 (shoulder width 20 < 40)
simultaneously. -/
def Wg12 : Frame :=
  [("left_shoulder", ⟨0, 0, 1⟩), ("right_shoulder", ⟨20, 0, 1⟩)]

/-- Both shoulders present but sharing the same x-coordinate. -/
def WeqX : Frame :=
  [("left_shoulder", ⟨5, 3, 1⟩), ("right_shoulder", ⟨5, 7, 1⟩)]

end

theorem resolve_hand_right : resolve_hand "right" = false := by decide

theorem resolve_hand_left : resolve_hand "left" = true := by decide

theorem resolve_hand_empty : resolve_hand "" = false := by decide

theorem swapName_left_shoulder : swapName "left_shoulder" = "right_shoulder" := by decide

theorem hypot_eval (dx dy r : ℚ) (hr : 0 ≤ r) (h : dx ^ 2 + dy ^ 2 = r ^ 2) :
    hypot dx dy = (r : ℚ) := by
  unfold hypot
  have hc : ((dx : ℝ) ^ 2 + (dy : ℝ) ^ 2) = ((r : ℝ)) ^ 2 := by exact_mod_cast h
  rw [hc]
  exact Real.sqrt_sq (by exact_mod_cast hr)

theorem hypot_nonneg (dx dy : ℚ) : 0 ≤ hypot dx dy := Real.sqrt_nonneg _

theorem deg_arccos_neg_one : Real.arccos (-1) * (180 / Real.pi) = 180 := by
  rw [Real.arccos_neg_one]
  field_simp

theorem deg_arccos_zero : Real.arccos 0 * (180 / Real.pi) = 90 := by
  rw [Real.arccos_zero]
  field_simp
  ring

theorem analyzeCore_gate1 (hand : String) (live ref : Frame)
    (h : gate1Fails hand live) : analyzeCore hand live ref = Outcome.gate1 := by
  unfold analyzeCore
  rcases h with h | h
  · rw [h]
  · cases hsw : shoulder_width live with
    | none => rfl
    | some w => simp only [if_pos h]

theorem analyzeCore_gate2 (hand : String) (live ref : Frame)
    (h1 : ¬ gate1Fails hand live) (h2 : gate2Fails live) :
    analyzeCore hand live ref = Outcome.gate2 := by
  unfold analyzeCore
  rw [gate1Fails, not_or, not_ne_iff] at h1
  obtain ⟨w, hw, hlt⟩ := h2
  rw [hw]
  simp only [h1.2, ne_eq, not_true_eq_false, if_false, if_pos hlt]

theorem analyzeCore_gate3 (hand : String) (live ref : Frame)
    (h1 : ¬ gate1Fails hand live) (h2 : ¬ gate2Fails live)
    (h3 : gate3Fails hand live) :
    analyzeCore hand live ref = Outcome.gate3 := by
  unfold analyzeCore
  rw [gate1Fails, not_or, not_ne_iff] at h1
  obtain ⟨w, hw, hx⟩ := h3
  have hlt : ¬ w < 40 := fun hc => h2 ⟨w, hw, hc⟩
  rw [hw]
  simp only [h1.2, ne_eq, not_true_eq_false, if_false, if_neg hlt, if_pos hx]

theorem analyzeCore_lists (hand : String) (live ref : Frame) (w : ℚ)
    (h1 : shoulder_width live = some w)
    (h2 : all_scores_ok live (requiredNames (rolesOf (resolve_hand hand))) 0.35 = [])
    (h3 : ¬ w < 40)
    (h4 : ¬ gate3_exceeds live (rolesOf (resolve_hand hand)) w) :
    analyzeCore hand live ref =
      Outcome.lists (ruleLists live ref (rolesOf (resolve_hand hand)) w) := by
  unfold analyzeCore
  rw [h1]
  simp only [h2, ne_eq, not_true_eq_false, if_false, if_neg h3, if_neg h4]

theorem analyzeCore_lists_of_gatesPass (hand : String) (live ref : Frame)
    (h : gatesPass hand live) :
    ∃ w, shoulder_width live = some w ∧
      analyzeCore hand live ref =
        Outcome.lists (ruleLists live ref (rolesOf (resolve_hand hand)) w) := by
  obtain ⟨w, h1, h2, h3, h4⟩ := h
  exact ⟨w, h1, analyzeCore_lists hand live ref w h1 h2 h3 h4⟩

/-- C1: the three gates run in the fixed order confidence → scale/cropping →
stance-presence; the first failing gate terminates evaluation with exactly
that gate’s canned bundle (no rule evaluation occurs), and in particular an
input failing gates 1 and 2 simultaneously yields gate 1’s bundle, whose
improvement issue is "upper-body joints not confidently detected". -/
theorem C1_first_failing_gate_wins (llm : Option (String × String)) (hand : String)
    (live ref : Frame) :
    (gate1Fails hand live → analyze_pose llm hand live ref = gate1Bundle) ∧
    (¬ gate1Fails hand live → gate2Fails live →
      analyze_pose llm hand live ref = gate2Bundle) ∧
    (¬ gate1Fails hand live → ¬ gate2Fails live → gate3Fails hand live →
      analyze_pose llm hand live ref = gate3Bundle) ∧
    (gate1Fails hand live ∧ gate2Fails live →
      analyze_pose llm hand live ref = gate1Bundle) ∧
    gate1Bundle.improvements_issue = "upper-body joints not confidently detected" := by
  refine ⟨fun h1 => ?_, fun h1 h2 => ?_, fun h1 h2 h3 => ?_, fun h12 => ?_, rfl⟩
  · unfold analyze_pose
    rw [analyzeCore_gate1 hand live ref h1]
  · unfold analyze_pose
    rw [analyzeCore_gate2 hand live ref h1 h2]
  · unfold analyze_pose
    rw [analyzeCore_gate3 hand live ref h1 h2 h3]
  · unfold analyze_pose
    rw [analyzeCore_gate1 hand live ref h12.1]

theorem Wg12_shoulder_width : shoulder_width Wg12 = some 20 := by
  simp +decide [shoulder_width, Wg12, kpLookup]

theorem Wg12_missing :
    all_scores_ok Wg12 (requiredNames (rolesOf (resolve_hand "right"))) 0.35 =
      ["left_wrist", "right_wrist"] := by
  rw [show resolve_hand "right" = false by decide]
  simp only [rolesOf, if_false, Bool.false_eq_true, requiredNames]
  simp [all_scores_ok, score_ok, kpLookup, Wg12]
  norm_num

theorem hypot_eq_zero_iff (dx dy : ℚ) : hypot dx dy = 0 ↔ dx = 0 ∧ dy = 0 := by
  unfold hypot
  rw [show (0 : ℝ) = Real.sqrt 0 by rw [Real.sqrt_zero]]
  rw [Real.sqrt_inj (by positivity) le_rfl]
  rw [add_eq_zero_iff_of_nonneg (sq_nonneg _) (sq_nonneg _)]
  rw [pow_eq_zero_iff (two_ne_zero), pow_eq_zero_iff (two_ne_zero)]
  exact and_congr (by exact_mod_cast Iff.rfl) (by exact_mod_cast Iff.rfl)

/-- C4 counterexample: a frame whose two shoulders are both present but share
the same x-coordinate; `shoulder_width` is undefined (`abs(...) or None`
collapses the zero width to `None`), contradicting the claim that it is
undefined only when a shoulder is missing and otherwise equals the absolute
x-difference. -/
theorem C4_counterexample :
    (kpLookup WeqX "left_shoulder").isSome ∧ (kpLookup WeqX "right_shoulder").isSome ∧
      shoulder_width WeqX = none := by
  refine ⟨by decide, by decide, ?_⟩
  simp +decide [shoulder_width, WeqX, kpLookup]

/-- C4 (amended): `shoulder_width` is undefined iff either shoulder is
missing or the two shoulders share the same x-coordinate; when both are
present with distinct x-coordinates it equals |x(right) − x(left)|. -/
theorem C4_shoulder_width_amended (m : Frame) :
    (∀ l r, kpLookup m "left_shoulder" = some l → kpLookup m "right_shoulder" = some r →
      ((r.x = l.x → shoulder_width m = none) ∧
       (r.x ≠ l.x → shoulder_width m = some |r.x - l.x|))) ∧
    ((kpLookup m "left_shoulder" = none ∨ kpLookup m "right_shoulder" = none) →
      shoulder_width m = none) := by
  constructor
  · intro l r hl hr
    unfold shoulder_width
    rw [hl, hr]
    dsimp only
    constructor
    · intro hx
      rw [if_pos (by rw [hx]; simp)]
    · intro hx
      rw [if_neg (by rw [abs_eq_zero, sub_eq_zero]; exact hx)]
  · intro h
    unfold shoulder_width
    rcases h with h | h
    · rw [h]
    · rw [h]
      cases kpLookup m "left_shoulder" <;> rfl

/-- Witness for the amended C4 at a concrete frame with distinct shoulder
x-coordinates. -/
theorem C4_witness : shoulder_width Wlive = some |(100 : ℚ) - 0| :=
  ((C4_shoulder_width_amended Wlive).1 ⟨0, 0, 1⟩ ⟨100, 0, 1⟩ (by decide) (by decide)).2
    (by norm_num)

/-- C9: `calculate_angle` returns the sentinel 0.0 whenever either of the
vectors B→A, B→C has zero length, and otherwise returns the arccos of the
dot product over the product of the magnitudes, clamped to [-1, 1], converted
to degrees. -/
theorem C9_calculate_angle (ax ay bx b_y cx cy : ℚ) :
    (((ax = bx ∧ ay = b_y) ∨ (cx = bx ∧ cy = b_y)) →
      calculate_angle ax ay bx b_y cx cy = 0) ∧
    ((ax, ay) ≠ (bx, b_y) → (cx, cy) ≠ (bx, b_y) →
      calculate_angle ax ay bx b_y cx cy =
        Real.arccos (max (min
            (((ax - bx) * (cx - bx) + (ay - b_y) * (cy - b_y) : ℚ) /
              (hypot (ax - bx) (ay - b_y) * hypot (cx - bx) (cy - b_y))) 1) (-1)) *
          (180 / Real.pi)) := by
  constructor
  · intro h
    unfold calculate_angle
    rw [if_pos]
    · norm_num
    · rcases h with ⟨h1, h2⟩ | ⟨h1, h2⟩
      · exact Or.inl ((hypot_eq_zero_iff _ _).mpr ⟨sub_eq_zero.mpr h1, sub_eq_zero.mpr h2⟩)
      · exact Or.inr ((hypot_eq_zero_iff _ _).mpr ⟨sub_eq_zero.mpr h1, sub_eq_zero.mpr h2⟩)
  · intro h1 h2
    unfold calculate_angle
    rw [if_neg]
    · show Real.arccos (max (min _ 1.0) (-1.0)) * (180 / Real.pi) = _
      norm_num
    · rw [not_or, hypot_eq_zero_iff, hypot_eq_zero_iff]
      constructor
      · intro hc
        exact h1 (Prod.ext (sub_eq_zero.mp hc.1) (sub_eq_zero.mp hc.2))
      · intro hc
        exact h2 (Prod.ext (sub_eq_zero.mp hc.1) (sub_eq_zero.mp hc.2))

/-- Witness for C9: a degenerate call returns the sentinel, and a right-angle
configuration returns 90 degrees. -/
theorem C9_witness :
    calculate_angle 0 0 0 0 5 5 = 0 ∧ calculate_angle 1 0 0 0 0 1 = 90 := by
  constructor
  · exact (C9_calculate_angle 0 0 0 0 5 5).1 (Or.inl ⟨rfl, rfl⟩)
  · rw [(C9_calculate_angle 1 0 0 0 0 1).2 (by norm_num) (by norm_num)]
    rw [show hypot (1 - 0) (0 - 0) = ((1 : ℚ) : ℝ) by apply hypot_eval <;> norm_num]
    rw [show hypot (0 - 0) (1 - 0) = ((1 : ℚ) : ℝ) by apply hypot_eval <;> norm_num]
    rw [show (((1 - 0) * (0 - 0) + (0 - 0) * (1 - 0) : ℚ) : ℝ) /
        (((1 : ℚ) : ℝ) * ((1 : ℚ) : ℝ)) = 0 by push_cast; norm_num]
    rw [show max (min (0 : ℝ) 1) (-1) = 0 by norm_num]
    exact deg_arccos_zero

theorem all_scores_ok_eq_nil (m : Frame) (names : List String) (s : ℚ) :
    all_scores_ok m names s = [] ↔ ∀ n ∈ names, score_ok m n s = true := by
  induction names with
  | nil => simp [all_scores_ok]
  | cons a rest ih =>
    by_cases h : score_ok m a s = true <;> simp [all_scores_ok, h, ih]

theorem score_ok_isSome (m : Frame) (n : String) (s : ℚ)
    (h : score_ok m n s = true) : (kpLookup m n).isSome := by
  unfold score_ok at h
  cases hk : kpLookup m n with
  | none => rw [hk] at h; exact absurd h (by simp)
  | some kp => simp

theorem shoulder_width_isSome (m : Frame) (w : ℚ) (h : shoulder_width m = some w) :
    (kpLookup m "left_shoulder").isSome ∧ (kpLookup m "right_shoulder").isSome := by
  unfold shoulder_width at h
  cases hl : kpLookup m "left_shoulder" with
  | none => rw [hl] at h; exact absurd h (by simp)
  | some l =>
    cases hr : kpLookup m "right_shoulder" with
    | none => rw [hl, hr] at h; exact absurd h (by simp)
    | some r => exact ⟨by simp, by simp⟩

/-- C10: once gate 1 passes (all four required joints confident and shoulder
width defined), every keypoint name the remaining gates and rules 1–8 access
is present in the live frame: the shoulders and wrists directly, and each
elbow whenever its 0.30 confidence guard (which implies presence) lets the
elbow-dependent rules run. -/
theorem C10_lookup_total (hand : String) (live : Frame) (w : ℚ)
    (hsw : shoulder_width live = some w)
    (hconf : all_scores_ok live (requiredNames (rolesOf (resolve_hand hand))) 0.35 = []) :
    (∀ n ∈ requiredNames (rolesOf (resolve_hand hand)), (kpLookup live n).isSome) ∧
    (kpLookup live "left_shoulder").isSome ∧ (kpLookup live "right_shoulder").isSome ∧
    (score_ok live (rolesOf (resolve_hand hand)).back_el 0.30 = true →
      (kpLookup live (rolesOf (resolve_hand hand)).back_el).isSome) ∧
    (score_ok live (rolesOf (resolve_hand hand)).front_el 0.30 = true →
      (kpLookup live (rolesOf (resolve_hand hand)).front_el).isSome) := by
  rw [all_scores_ok_eq_nil] at hconf
  refine ⟨fun n hn => score_ok_isSome _ _ _ (hconf n hn),
    (shoulder_width_isSome live w hsw).1, (shoulder_width_isSome live w hsw).2,
    fun h => score_ok_isSome _ _ _ h, fun h => score_ok_isSome _ _ _ h⟩

theorem Wlive_shoulder_width : shoulder_width Wlive = some 100 := by
  simp +decide [shoulder_width, Wlive, kpLookup]

theorem Wlive_conf :
    all_scores_ok Wlive (requiredNames (rolesOf (resolve_hand "right"))) 0.35 = [] := by
  rw [show resolve_hand "right" = false by decide]
  simp only [rolesOf, if_false, Bool.false_eq_true, requiredNames]
  simp [all_scores_ok, score_ok, kpLookup, Wlive]
  norm_num

/-- Witness for C10 at the gate-passing frame `Wlive`. -/
theorem C10_witness :
    (kpLookup Wlive "left_shoulder").isSome ∧ (kpLookup Wlive "right_shoulder").isSome :=
  ⟨(C10_lookup_total "right" Wlive 100 Wlive_shoulder_width Wlive_conf).2.1,
   (C10_lookup_total "right" Wlive 100 Wlive_shoulder_width Wlive_conf).2.2.1⟩

/-- Witness for C1: `Wg12` fails gate 1 (no wrists) and gate 2 (width 20)
simultaneously and gets gate 1’s bundle. -/
theorem C1_witness :
    gate1Fails "right" Wg12 ∧ gate2Fails Wg12 ∧
      analyze_pose none "right" Wg12 [] = gate1Bundle := by
  have hg1 : gate1Fails "right" Wg12 := Or.inr (by rw [Wg12_missing]; simp)
  have hg2 : gate2Fails Wg12 := ⟨20, Wg12_shoulder_width, by norm_num⟩
  exact ⟨hg1, hg2, (C1_first_failing_gate_wins none "right" Wg12 []).2.2.2.1 ⟨hg1, hg2⟩⟩

theorem norm_dist_eval (dx dy s r : ℚ) (hs : s ≠ 0) (hr : 0 ≤ r)
    (h : dx ^ 2 + dy ^ 2 = r ^ 2) :
    norm_dist dx dy s = some ((r : ℝ) / (s : ℝ)) := by
  rw [norm_dist, if_neg hs, hypot_eval dx dy r hr h]

theorem Wlive_h2bs :
    hand_to_back_sh Wlive (rolesOf false) 100 = some ((25 : ℝ) / (100 : ℝ)) := by
  unfold hand_to_back_sh
  rw [show hands_x Wlive (rolesOf false) - (kget Wlive (rolesOf false).back_sh).x = 25 by
    simp +decide [hands_x, kget, kpLookup, Wlive, rolesOf]; norm_num]
  rw [show hands_y Wlive (rolesOf false) - (kget Wlive (rolesOf false).back_sh).y = 0 by
    simp +decide [hands_y, kget, kpLookup, Wlive, rolesOf]]
  rw [norm_dist_eval 25 0 100 25 (by norm_num) (by norm_num) (by norm_num)]
  norm_num

theorem Wlive_gate3_ok : ¬ gate3_exceeds Wlive (rolesOf false) 100 := by
  unfold gate3_exceeds
  rw [Wlive_h2bs]
  norm_num

theorem Wlive_core (ref : Frame) :
    analyzeCore "right" Wlive ref =
      Outcome.lists (ruleLists Wlive ref (rolesOf false) 100) := by
  have hr : resolve_hand "right" = false := by decide
  have h := analyzeCore_lists "right" Wlive ref 100 Wlive_shoulder_width Wlive_conf
    (by norm_num) (by rw [hr]; exact Wlive_gate3_ok)
  rwa [hr] at h

theorem calc_angle_collinear (a b c : ℚ) (h1 : a < b) (h2 : b < c) :
    calculate_angle a 0 b 0 c 0 = 180 := by
  unfold calculate_angle
  have hBA : hypot (a - b) (0 - 0) = ((b - a : ℚ) : ℝ) :=
    hypot_eval _ _ _ (by linarith) (by ring)
  have hBC : hypot (c - b) (0 - 0) = ((c - b : ℚ) : ℝ) :=
    hypot_eval _ _ _ (by linarith) (by ring)
  have hba : (0 : ℝ) < ((b - a : ℚ) : ℝ) := by exact_mod_cast sub_pos.mpr h1
  have hcb : (0 : ℝ) < ((c - b : ℚ) : ℝ) := by exact_mod_cast sub_pos.mpr h2
  rw [if_neg]
  · rw [hBA, hBC]
    have hcos : (((a - b) * (c - b) + (0 - 0) * (0 - 0) : ℚ) : ℝ) /
        (((b - a : ℚ) : ℝ) * ((c - b : ℚ) : ℝ)) = -1 := by
      rw [div_eq_iff (ne_of_gt (mul_pos hba hcb))]
      push_cast
      ring
    rw [hcos]
    show Real.arccos (max (min (-1 : ℝ) 1.0) (-1.0)) * (180 / Real.pi) = 180
    rw [show max (min (-1 : ℝ) 1.0) (-1.0) = -1 by norm_num]
    exact deg_arccos_neg_one
  · rw [hBA, hBC]
    intro hc
    rcases hc with hc | hc <;> nlinarith

theorem rule9_nil (live : Frame) (R : Roles) (sw : ℚ) :
    rule9_ref live [] R sw = ([], []) := rfl

theorem Wlive_backel_ok : score_ok Wlive (rolesOf false).back_el 0.30 = true := by
  simp [score_ok, kpLookup, Wlive, rolesOf]
  norm_num

theorem Wlive_frontel_ok : score_ok Wlive (rolesOf false).front_el 0.30 = true := by
  simp [score_ok, kpLookup, Wlive, rolesOf]
  norm_num

theorem Wlive_rule0 : rule0_elbow_vis Wlive (rolesOf false) = [] := by
  have h : all_scores_ok Wlive [(rolesOf false).front_el, (rolesOf false).back_el] 0.30 = [] := by
    simp +decide [all_scores_ok, score_ok, kpLookup, Wlive, rolesOf]
    norm_num
  rw [rule0_elbow_vis, h]
  simp

theorem Wlive_rule1 : rule1_grip Wlive (rolesOf false) 100 = ([msg_pos_grip], []) := by
  have h : norm_dist ((kget Wlive (rolesOf false).back_wr).x - (kget Wlive (rolesOf false).front_wr).x)
      ((kget Wlive (rolesOf false).back_wr).y - (kget Wlive (rolesOf false).front_wr).y) 100 =
      some ((10 : ℝ) / (100 : ℝ)) := by
    rw [show (kget Wlive (rolesOf false).back_wr).x - (kget Wlive (rolesOf false).front_wr).x = (-10 : ℚ) by
          simp +decide [kget, kpLookup, Wlive, rolesOf]; norm_num,
        show (kget Wlive (rolesOf false).back_wr).y - (kget Wlive (rolesOf false).front_wr).y = (0 : ℚ) by
          simp +decide [kget, kpLookup, Wlive, rolesOf],
        norm_dist_eval (-10) 0 100 10 (by norm_num) (by norm_num) (by norm_num)]
    norm_num
  simp only [rule1_grip, h]
  rw [if_pos (by norm_num)]

theorem Wlive_rule2 : rule2_hand_set Wlive (rolesOf false) 100 = ([msg_pos_hand_set], []) := by
  simp only [rule2_hand_set, Wlive_h2bs]
  rw [if_pos (by norm_num)]

theorem Wlive_rule3 : rule3_drift Wlive (rolesOf false) 100 = ([msg_pos_drift], []) := by
  have h : |hands_x Wlive (rolesOf false) -
      ((kget Wlive "left_shoulder").x + (kget Wlive "right_shoulder").x) / 2| / (100 : ℚ) ≤ 0.90 := by
    simp +decide [hands_x, kget, kpLookup, Wlive, rolesOf]
    norm_num
  simp only [rule3_drift]
  rw [if_pos h]

theorem Wlive_rule4 : rule4_slot Wlive (rolesOf false) 100 = ([msg_pos_slot], []) := by
  simp only [rule4_slot, Wlive_backel_ok, if_true]
  rw [show ((kget Wlive (rolesOf false).back_sh).y - (kget Wlive (rolesOf false).back_el).y) / (100 : ℚ) = 0 by
    simp +decide [kget, kpLookup, Wlive, rolesOf]]
  rw [if_pos (by norm_num)]

theorem Wlive_angle_back :
    angle Wlive (rolesOf false).back_sh (rolesOf false).back_el (rolesOf false).back_wr = 180 := by
  unfold angle
  rw [show (kget Wlive (rolesOf false).back_sh).x = 100 from by decide,
      show (kget Wlive (rolesOf false).back_sh).y = 0 from by decide,
      show (kget Wlive (rolesOf false).back_el).x = 110 from by decide,
      show (kget Wlive (rolesOf false).back_el).y = 0 from by decide,
      show (kget Wlive (rolesOf false).back_wr).x = 120 from by decide,
      show (kget Wlive (rolesOf false).back_wr).y = 0 from by decide]
  exact calc_angle_collinear 100 110 120 (by norm_num) (by norm_num)

theorem Wlive_angle_front :
    angle Wlive (rolesOf false).front_sh (rolesOf false).front_el (rolesOf false).front_wr = 180 := by
  unfold angle
  rw [show (kget Wlive (rolesOf false).front_sh).x = 0 from by decide,
      show (kget Wlive (rolesOf false).front_sh).y = 0 from by decide,
      show (kget Wlive (rolesOf false).front_el).x = 50 from by decide,
      show (kget Wlive (rolesOf false).front_el).y = 0 from by decide,
      show (kget Wlive (rolesOf false).front_wr).x = 130 from by decide,
      show (kget Wlive (rolesOf false).front_wr).y = 0 from by decide]
  exact calc_angle_collinear 0 50 130 (by norm_num) (by norm_num)

theorem Wlive_rule5 : rule5_back_arm Wlive (rolesOf false) = ([], [msg_imp_back_straight]) := by
  simp only [rule5_back_arm, Wlive_backel_ok, if_true, Wlive_angle_back]
  rw [if_neg (by norm_num), if_pos (by norm_num)]

theorem Wlive_rule6 : rule6_front_arm Wlive (rolesOf false) = ([], [msg_imp_front_locked]) := by
  simp only [rule6_front_arm, Wlive_frontel_ok, if_true, Wlive_angle_front]
  rw [if_neg (by norm_num), if_pos (by norm_num)]

theorem Wlive_rule7 : rule7_triangle Wlive (rolesOf false) 100 = ([msg_pos_triangle], []) := by
  have h : norm_dist ((kget Wlive (rolesOf false).back_el).x - (kget Wlive (rolesOf false).back_sh).x)
      ((kget Wlive (rolesOf false).back_el).y - (kget Wlive (rolesOf false).back_sh).y) 100 =
      some ((10 : ℝ) / (100 : ℝ)) := by
    rw [show (kget Wlive (rolesOf false).back_el).x - (kget Wlive (rolesOf false).back_sh).x = (10 : ℚ) by
          simp +decide [kget, kpLookup, Wlive, rolesOf]; norm_num,
        show (kget Wlive (rolesOf false).back_el).y - (kget Wlive (rolesOf false).back_sh).y = (0 : ℚ) by
          simp +decide [kget, kpLookup, Wlive, rolesOf],
        norm_dist_eval 10 0 100 10 (by norm_num) (by norm_num) (by norm_num)]
    norm_num
  simp only [rule7_triangle, Wlive_backel_ok, if_true, h]
  rw [if_pos (by norm_num)]

theorem Wlive_rule8 : rule8_level Wlive = ([msg_pos_level], []) := by
  simp only [rule8_level]
  rw [if_pos (by simp +decide [kget, kpLookup, Wlive])]

theorem Wlive_ruleLists :
    ruleLists Wlive [] (rolesOf false) 100 =
      ([msg_pos_grip, msg_pos_hand_set, msg_pos_drift, msg_pos_slot,
        msg_pos_triangle, msg_pos_level],
       [msg_imp_back_straight, msg_imp_front_locked]) := by
  simp only [ruleLists, Wlive_rule0, Wlive_rule1, Wlive_rule2, Wlive_rule3, Wlive_rule4,
    Wlive_rule5, Wlive_rule6, Wlive_rule7, Wlive_rule8, rule9_nil]
  rfl

/-- C5: for every input that reaches the rule evaluator (all three gates
pass), the default-filled `positives` and `improvements` lists are each
non-empty; a generic encouragement is appended when the rules left
`positives` empty, and a generic "all good" message when they left
`improvements` empty. -/
theorem C5_nonempty_guarantee (hand : String) (live ref : Frame) (P I : List String)
    (h : analyzeCore hand live ref = Outcome.lists (P, I)) :
    (fillDefaults (P, I)).1 ≠ [] ∧ (fillDefaults (P, I)).2 ≠ [] ∧
    (P = [] → (fillDefaults (P, I)).1 = P ++ [msg_fill_pos]) ∧
    (I = [] → (fillDefaults (P, I)).2 = I ++ [msg_fill_imp]) := by
  refine ⟨?_, ?_, ?_, ?_⟩ <;> unfold fillDefaults
  · by_cases hP : P = [] <;> simp [hP]
  · by_cases hI : I = [] <;> simp [hI]
  · intro hP; simp [hP]
  · intro hI; simp [hI]

/-- Witness for C5 at the gate-passing frame `Wlive`. -/
theorem C5_witness :
    (fillDefaults (ruleLists Wlive [] (rolesOf false) 100)).1 ≠ [] ∧
    (fillDefaults (ruleLists Wlive [] (rolesOf false) 100)).2 ≠ [] :=
  ⟨(C5_nonempty_guarantee "right" Wlive [] _ _ (Wlive_core [])).1,
   (C5_nonempty_guarantee "right" Wlive [] _ _ (Wlive_core [])).2.1⟩

/-- C8: when the rewrite collaborator raises (modelled by `llm = none`), the
evaluation still completes, and the final advice strings are the first raw
positive and first raw improvement strings verbatim — or the generic filled
defaults when the corresponding raw list is empty. -/
theorem C8_rewrite_fallback (hand : String) (live ref : Frame) (P I : List String)
    (h : analyzeCore hand live ref = Outcome.lists (P, I)) :
    analyze_pose none hand live ref =
      ⟨"Good job", P.headD msg_fill_pos,
       "One thing to work on", I.headD msg_fill_imp⟩ := by
  unfold analyze_pose
  rw [h]
  cases P <;> cases I <;> simp [fillDefaults, coach_rewrite]

/-- Witness for C8 at `Wlive`: with the rewrite collaborator failing, the
bundle carries the first raw positive and improvement verbatim. -/
theorem C8_witness :
    analyze_pose none "right" Wlive [] =
      ⟨"Good job", msg_pos_grip, "One thing to work on", msg_imp_back_straight⟩ := by
  have h := C8_rewrite_fallback "right" Wlive []
    (ruleLists Wlive [] (rolesOf false) 100).1 (ruleLists Wlive [] (rolesOf false) 100).2
    (Wlive_core [])
  simpa [Wlive_ruleLists] using h

theorem rule0_mem_iff (live : Frame) (R : Roles) :
    msg_imp_elbow_vis ∈ rule0_elbow_vis live R ↔
      (score_ok live R.front_el 0.30 = false ∨ score_ok live R.back_el 0.30 = false) := by
  have hn : all_scores_ok live [R.front_el, R.back_el] 0.30 = [] ↔
      (score_ok live R.front_el 0.30 = true ∧ score_ok live R.back_el 0.30 = true) := by
    rw [all_scores_ok_eq_nil]
    simp
  unfold rule0_elbow_vis
  by_cases hf : score_ok live R.front_el 0.30 = true <;>
    by_cases hb : score_ok live R.back_el 0.30 = true
  · rw [if_neg (not_not.mpr (hn.mpr ⟨hf, hb⟩))]
    simp [hf, hb]
  · have hb2 : score_ok live R.back_el 0.30 = false := by
      revert hb; cases score_ok live R.back_el 0.30 <;> simp
    rw [if_pos (fun he => hb (hn.mp he).2)]
    simp [hb2]
  · have hf2 : score_ok live R.front_el 0.30 = false := by
      revert hf; cases score_ok live R.front_el 0.30 <;> simp
    rw [if_pos (fun he => hf (hn.mp he).1)]
    simp [hf2]
  · have hf2 : score_ok live R.front_el 0.30 = false := by
      revert hf; cases score_ok live R.front_el 0.30 <;> simp
    rw [if_pos (fun he => hf (hn.mp he).1)]
    simp [hf2]

theorem rule0_sub (live : Frame) (R : Roles) (s : String)
    (h : s ∈ rule0_elbow_vis live R) : s = msg_imp_elbow_vis := by
  unfold rule0_elbow_vis at h
  split at h <;> simp_all

theorem rule1_pos_sub (live : Frame) (R : Roles) (sw : ℚ) (s : String)
    (h : s ∈ (rule1_grip live R sw).1) : s = msg_pos_grip := by
  simp only [rule1_grip] at h
  split at h
  · simp at h
  · split at h <;> simp_all

theorem rule1_imp_sub (live : Frame) (R : Roles) (sw : ℚ) (s : String)
    (h : s ∈ (rule1_grip live R sw).2) : s = msg_imp_grip := by
  simp only [rule1_grip] at h
  split at h
  · simp at h
  · split at h <;> simp_all

theorem rule2_pos_sub (live : Frame) (R : Roles) (sw : ℚ) (s : String)
    (h : s ∈ (rule2_hand_set live R sw).1) : s = msg_pos_hand_set := by
  simp only [rule2_hand_set] at h
  split at h
  · simp at h
  · split at h <;> simp_all

theorem rule2_imp_sub (live : Frame) (R : Roles) (sw : ℚ) (s : String)
    (h : s ∈ (rule2_hand_set live R sw).2) : s = msg_imp_hand_set := by
  simp only [rule2_hand_set] at h
  split at h
  · simp at h
  · split at h <;> simp_all

theorem rule3_pos_sub (live : Frame) (R : Roles) (sw : ℚ) (s : String)
    (h : s ∈ (rule3_drift live R sw).1) : s = msg_pos_drift := by
  simp only [rule3_drift] at h
  split at h <;> simp_all

theorem rule3_imp_sub (live : Frame) (R : Roles) (sw : ℚ) (s : String)
    (h : s ∈ (rule3_drift live R sw).2) : s = msg_imp_drift := by
  simp only [rule3_drift] at h
  split at h <;> simp_all

theorem rule4_pos_sub (live : Frame) (R : Roles) (sw : ℚ) (s : String)
    (h : s ∈ (rule4_slot live R sw).1) : s = msg_pos_slot := by
  simp only [rule4_slot] at h
  split at h
  · split at h <;> simp_all
  · simp at h

theorem rule4_imp_sub (live : Frame) (R : Roles) (sw : ℚ) (s : String)
    (h : s ∈ (rule4_slot live R sw).2) :
    s = msg_imp_slot_high ∨ s = msg_imp_slot_low := by
  simp only [rule4_slot] at h
  split at h
  · split at h
    · simp at h
    · simp only [List.mem_append] at h
      rcases h with h | h <;> split at h <;> simp_all
  · simp at h

theorem rule5_pos_sub (live : Frame) (R : Roles) (s : String)
    (h : s ∈ (rule5_back_arm live R).1) : s = msg_pos_back_arm := by
  simp only [rule5_back_arm] at h
  split at h
  · split at h
    · simp_all
    · split at h <;> simp_all
  · simp at h

theorem rule5_imp_sub (live : Frame) (R : Roles) (s : String)
    (h : s ∈ (rule5_back_arm live R).2) :
    s = msg_imp_back_straight ∨ s = msg_imp_back_collapsed := by
  simp only [rule5_back_arm] at h
  split at h
  · split at h
    · simp_all
    · split at h <;> simp_all
  · simp at h

theorem rule6_pos_sub (live : Frame) (R : Roles) (s : String)
    (h : s ∈ (rule6_front_arm live R).1) : s = msg_pos_front_arm := by
  simp only [rule6_front_arm] at h
  split at h
  · split at h
    · simp_all
    · split at h <;> simp_all
  · simp at h

theorem rule6_imp_sub (live : Frame) (R : Roles) (s : String)
    (h : s ∈ (rule6_front_arm live R).2) :
    s = msg_imp_front_locked ∨ s = msg_imp_front_tucked := by
  simp only [rule6_front_arm] at h
  split at h
  · split at h
    · simp_all
    · split at h <;> simp_all
  · simp at h

theorem rule7_pos_sub (live : Frame) (R : Roles) (sw : ℚ) (s : String)
    (h : s ∈ (rule7_triangle live R sw).1) : s = msg_pos_triangle := by
  simp only [rule7_triangle] at h
  split at h
  · split at h
    · simp at h
    · split at h <;> simp_all
  · simp at h

theorem rule7_imp_sub (live : Frame) (R : Roles) (sw : ℚ) (s : String)
    (h : s ∈ (rule7_triangle live R sw).2) : s = msg_imp_triangle := by
  simp only [rule7_triangle] at h
  split at h
  · split at h
    · simp at h
    · split at h <;> simp_all
  · simp at h

theorem rule8_pos_sub (live : Frame) (s : String)
    (h : s ∈ (rule8_level live).1) : s = msg_pos_level := by
  simp only [rule8_level] at h
  split at h <;> simp_all

theorem rule8_imp_sub (live : Frame) (s : String)
    (h : s ∈ (rule8_level live).2) : s = msg_imp_level := by
  simp only [rule8_level] at h
  split at h <;> simp_all

theorem rule9_pos_sub (live ref : Frame) (R : Roles) (sw : ℚ) (s : String)
    (h : s ∈ (rule9_ref live ref R sw).1) : s = msg_pos_ref := by
  simp only [rule9_ref] at h
  split at h
  · simp at h
  · split at h
    · simp at h
    · split at h
      · split at h
        · split at h <;> simp_all
        · simp at h
      · simp at h

theorem rule9_imp_sub (live ref : Frame) (R : Roles) (sw : ℚ) (s : String)
    (h : s ∈ (rule9_ref live ref R sw).2) : s = msg_imp_ref := by
  simp only [rule9_ref] at h
  split at h
  · simp at h
  · split at h
    · simp at h
    · split at h
      · split at h
        · split at h <;> simp_all
        · simp at h
      · simp at h

theorem WlowElbow_shoulder_width : shoulder_width WlowElbow = some 100 := by
  simp +decide [shoulder_width, WlowElbow, kpLookup]

theorem WlowElbow_conf :
    all_scores_ok WlowElbow (requiredNames (rolesOf (resolve_hand "right"))) 0.35 = [] := by
  rw [show resolve_hand "right" = false by decide]
  simp only [rolesOf, if_false, Bool.false_eq_true, requiredNames]
  simp [all_scores_ok, score_ok, kpLookup, WlowElbow]
  norm_num

theorem WlowElbow_h2bs :
    hand_to_back_sh WlowElbow (rolesOf false) 100 = some ((25 : ℝ) / (100 : ℝ)) := by
  unfold hand_to_back_sh
  rw [show hands_x WlowElbow (rolesOf false) - (kget WlowElbow (rolesOf false).back_sh).x = 25 by
    simp +decide [hands_x, kget, kpLookup, WlowElbow, rolesOf]; norm_num]
  rw [show hands_y WlowElbow (rolesOf false) - (kget WlowElbow (rolesOf false).back_sh).y = 0 by
    simp +decide [hands_y, kget, kpLookup, WlowElbow, rolesOf]]
  rw [norm_dist_eval 25 0 100 25 (by norm_num) (by norm_num) (by norm_num)]
  norm_num

theorem WlowElbow_gate3_ok : ¬ gate3_exceeds WlowElbow (rolesOf false) 100 := by
  unfold gate3_exceeds
  rw [WlowElbow_h2bs]
  norm_num

theorem WlowElbow_frontel : score_ok WlowElbow (rolesOf false).front_el 0.30 = false := by
  simp [score_ok, kpLookup, WlowElbow, rolesOf]
  norm_num

theorem WlowElbow_backel : score_ok WlowElbow (rolesOf false).back_el 0.30 = true := by
  simp [score_ok, kpLookup, WlowElbow, rolesOf]
  norm_num

/-- C2 (amended): for a gate-passing input, the elbow-visibility improvement
is emitted iff at least one of the two handedness-resolved elbows fails the
0.30 confidence check (below threshold or absent), not only when both do. -/
theorem C2_elbow_visibility_amended (hand : String) (live ref : Frame) (w : ℚ)
    (h1 : shoulder_width live = some w)
    (h2 : all_scores_ok live (requiredNames (rolesOf (resolve_hand hand))) 0.35 = [])
    (h3 : ¬ w < 40)
    (h4 : ¬ gate3_exceeds live (rolesOf (resolve_hand hand)) w) :
    analyzeCore hand live ref =
      Outcome.lists (ruleLists live ref (rolesOf (resolve_hand hand)) w) ∧
    (msg_imp_elbow_vis ∈ (ruleLists live ref (rolesOf (resolve_hand hand)) w).2 ↔
      (score_ok live (rolesOf (resolve_hand hand)).front_el 0.30 = false ∨
       score_ok live (rolesOf (resolve_hand hand)).back_el 0.30 = false)) := by
  refine ⟨analyzeCore_lists hand live ref w h1 h2 h3 h4, ?_, ?_⟩
  · intro hm
    simp only [ruleLists, List.mem_append] at hm
    rcases hm with ((((((((h | h) | h) | h) | h) | h) | h) | h) | h) | h
    · exact (rule0_mem_iff live _).mp h
    · exact absurd (rule1_imp_sub _ _ _ _ h) (by decide)
    · exact absurd (rule2_imp_sub _ _ _ _ h) (by decide)
    · exact absurd (rule3_imp_sub _ _ _ _ h) (by decide)
    · rcases rule4_imp_sub _ _ _ _ h with h | h <;> exact absurd h (by decide)
    · rcases rule5_imp_sub _ _ _ h with h | h <;> exact absurd h (by decide)
    · rcases rule6_imp_sub _ _ _ h with h | h <;> exact absurd h (by decide)
    · exact absurd (rule7_imp_sub _ _ _ _ h) (by decide)
    · exact absurd (rule8_imp_sub _ _ h) (by decide)
    · exact absurd (rule9_imp_sub _ _ _ _ _ h) (by decide)
  · intro hcond
    simp only [ruleLists, List.mem_append]
    exact Or.inl (Or.inl (Or.inl (Or.inl (Or.inl (Or.inl (Or.inl (Or.inl
      (Or.inl ((rule0_mem_iff live _).mpr hcond)))))))))

/-- C2 counterexample: `WlowElbow` passes all gates, its back elbow has
confidence 1 ≥ 0.30, yet the elbow-visibility improvement is still emitted
(because the front elbow is at 0.1) — refuting the claim that the message
appears only when both elbows are below 0.30. -/
theorem C2_counterexample :
    gatesPass "right" WlowElbow ∧
    score_ok WlowElbow (rolesOf (resolve_hand "right")).back_el 0.30 = true ∧
    msg_imp_elbow_vis ∈ (ruleLists WlowElbow [] (rolesOf (resolve_hand "right")) 100).2 := by
  have hr : resolve_hand "right" = false := by decide
  refine ⟨⟨100, WlowElbow_shoulder_width, WlowElbow_conf, by norm_num,
    by rw [hr]; exact WlowElbow_gate3_ok⟩, by rw [hr]; exact WlowElbow_backel, ?_⟩
  rw [hr]
  simp only [ruleLists, List.mem_append]
  exact Or.inl (Or.inl (Or.inl (Or.inl (Or.inl (Or.inl (Or.inl (Or.inl
    (Or.inl ((rule0_mem_iff _ _).mpr (Or.inl WlowElbow_frontel))))))))))

/-- Witness for the amended C2 at `WlowElbow`. -/
theorem C2_witness :
    msg_imp_elbow_vis ∈ (ruleLists WlowElbow [] (rolesOf (resolve_hand "right")) 100).2 := by
  have hr : resolve_hand "right" = false := by decide
  apply (C2_elbow_visibility_amended "right" WlowElbow [] 100 WlowElbow_shoulder_width
    WlowElbow_conf (by norm_num) (by rw [hr]; exact WlowElbow_gate3_ok)).2.mpr
  rw [hr]
  exact Or.inl WlowElbow_frontel

theorem rule9_runs (live ref : Frame) (R : Roles) (sw refsw : ℚ)
    (href : ref ≠ []) (hrsw : shoulder_width ref = some refsw)
    (hok : all_scores_ok ref (requiredNames R) 0.30 = []) :
    rule9_ref live ref R sw =
      if |h_dist live R sw - h_dist ref R refsw| > 0.20 then
        (if h_dist live R sw > h_dist ref R refsw then ([], [msg_imp_ref])
         else ([msg_pos_ref], []))
      else ([], []) := by
  cases ref with
  | nil => exact absurd rfl href
  | cons p rest =>
    simp only [rule9_ref, hrsw, hok, if_true]

theorem Wlive_conf030 :
    all_scores_ok Wlive (requiredNames (rolesOf false)) 0.30 = [] := by
  simp only [rolesOf, if_false, Bool.false_eq_true, requiredNames]
  simp [all_scores_ok, score_ok, kpLookup, Wlive]
  norm_num

theorem Wlive_h_dist : h_dist Wlive (rolesOf false) 100 = (25 : ℝ) / (100 : ℝ) := by
  unfold h_dist
  rw [show hands_x Wlive (rolesOf false) - (kget Wlive (rolesOf false).back_sh).x = 25 by
    simp +decide [hands_x, kget, kpLookup, Wlive, rolesOf]; norm_num]
  rw [show hands_y Wlive (rolesOf false) - (kget Wlive (rolesOf false).back_sh).y = 0 by
    simp +decide [hands_y, kget, kpLookup, Wlive, rolesOf]]
  rw [hypot_eval 25 0 25 (by norm_num) (by norm_num)]
  norm_num

theorem Wref_shoulder_width : shoulder_width Wref = some 100 := by
  simp +decide [shoulder_width, Wref, kpLookup]

theorem Wref_conf030 :
    all_scores_ok Wref (requiredNames (rolesOf false)) 0.30 = [] := by
  simp only [rolesOf, if_false, Bool.false_eq_true, requiredNames]
  simp [all_scores_ok, score_ok, kpLookup, Wref]
  norm_num

theorem Wref_h_dist : h_dist Wref (rolesOf false) 100 = (65 : ℝ) / (100 : ℝ) := by
  unfold h_dist
  rw [show hands_x Wref (rolesOf false) - (kget Wref (rolesOf false).back_sh).x = 65 by
    simp +decide [hands_x, kget, kpLookup, Wref, rolesOf]; norm_num]
  rw [show hands_y Wref (rolesOf false) - (kget Wref (rolesOf false).back_sh).y = 0 by
    simp +decide [hands_y, kget, kpLookup, Wref, rolesOf]]
  rw [hypot_eval 65 0 65 (by norm_num) (by norm_num)]
  norm_num

/-- C3 (amended): with a gate-passing live frame and a valid (non-empty,
defined-width, fully 0.30-confident) reference frame, the reference rule
emits its positive observation iff the reference distance exceeds the live
distance by more than 0.20, emits its improvement iff the live distance
exceeds the reference distance by more than 0.20, and emits nothing at all
when the two distances are within 0.20 of each other. -/
theorem C3_reference_match_amended (hand : String) (live ref : Frame) (w rsw : ℚ)
    (h1 : shoulder_width live = some w)
    (h2 : all_scores_ok live (requiredNames (rolesOf (resolve_hand hand))) 0.35 = [])
    (h3 : ¬ w < 40)
    (h4 : ¬ gate3_exceeds live (rolesOf (resolve_hand hand)) w)
    (href : ref ≠ []) (hrsw : shoulder_width ref = some rsw)
    (hrok : all_scores_ok ref (requiredNames (rolesOf (resolve_hand hand))) 0.30 = []) :
    analyzeCore hand live ref =
      Outcome.lists (ruleLists live ref (rolesOf (resolve_hand hand)) w) ∧
    (msg_pos_ref ∈ (ruleLists live ref (rolesOf (resolve_hand hand)) w).1 ↔
      h_dist ref (rolesOf (resolve_hand hand)) rsw -
        h_dist live (rolesOf (resolve_hand hand)) w > 0.20) ∧
    (msg_imp_ref ∈ (ruleLists live ref (rolesOf (resolve_hand hand)) w).2 ↔
      h_dist live (rolesOf (resolve_hand hand)) w -
        h_dist ref (rolesOf (resolve_hand hand)) rsw > 0.20) := by
  set R := rolesOf (resolve_hand hand) with hR
  set l := h_dist live R w with hl
  set r := h_dist ref R rsw with hrd
  have h9 := rule9_runs live ref R w rsw href hrsw hrok
  refine ⟨analyzeCore_lists hand live ref w h1 h2 h3 h4, ?_, ?_⟩
  · constructor
    · intro hm
      simp only [ruleLists, List.mem_append] at hm
      rcases hm with (((((((h | h) | h) | h) | h) | h) | h) | h) | h
      · exact absurd (rule1_pos_sub _ _ _ _ h) (by decide)
      · exact absurd (rule2_pos_sub _ _ _ _ h) (by decide)
      · exact absurd (rule3_pos_sub _ _ _ _ h) (by decide)
      · exact absurd (rule4_pos_sub _ _ _ _ h) (by decide)
      · exact absurd (rule5_pos_sub _ _ _ h) (by decide)
      · exact absurd (rule6_pos_sub _ _ _ h) (by decide)
      · exact absurd (rule7_pos_sub _ _ _ _ h) (by decide)
      · exact absurd (rule8_pos_sub _ _ h) (by decide)
      · rw [h9] at h
        split at h
        · split at h
          · simp at h
          · rename_i habs hgt
            have hle : l ≤ r := not_lt.mp hgt
            have : |l - r| = r - l := by
              rw [abs_of_nonpos (by linarith)]
              ring
            linarith [this ▸ habs]
        · simp at h
    · intro hgt
      simp only [ruleLists, List.mem_append]
      refine Or.inr ?_
      rw [h9, if_pos (by rw [abs_sub_comm, abs_of_pos (by linarith)]; linarith),
        if_neg (by intro hc; linarith)]
      simp
  · constructor
    · intro hm
      simp only [ruleLists, List.mem_append] at hm
      rcases hm with ((((((((h | h) | h) | h) | h) | h) | h) | h) | h) | h
      · exact absurd (rule0_sub _ _ _ h) (by decide)
      · exact absurd (rule1_imp_sub _ _ _ _ h) (by decide)
      · exact absurd (rule2_imp_sub _ _ _ _ h) (by decide)
      · exact absurd (rule3_imp_sub _ _ _ _ h) (by decide)
      · rcases rule4_imp_sub _ _ _ _ h with h | h <;> exact absurd h (by decide)
      · rcases rule5_imp_sub _ _ _ h with h | h <;> exact absurd h (by decide)
      · rcases rule6_imp_sub _ _ _ h with h | h <;> exact absurd h (by decide)
      · exact absurd (rule7_imp_sub _ _ _ _ h) (by decide)
      · exact absurd (rule8_imp_sub _ _ h) (by decide)
      · rw [h9] at h
        split at h
        · split at h
          · rename_i habs hgt
            have habs2 : |l - r| = l - r := abs_of_pos (by linarith)
            linarith [habs2 ▸ habs]
          · simp at h
        · simp at h
    · intro hgt
      simp only [ruleLists, List.mem_append]
      refine Or.inr ?_
      rw [h9, if_pos (by rw [abs_of_pos (by linarith)]; linarith),
        if_pos (by linarith)]
      simp

/-- C3 counterexample: with `Wlive` as both live and reference frame the two
hand distances are equal (difference 0 ≤ 0.20 and live ≤ ref), yet the
reference rule emits no positive observation at all — refuting the claim
that the positive fires whenever the difference is within 0.20 or live ≤ ref. -/
theorem C3_counterexample :
    gatesPass "right" Wlive ∧ (Wlive : Frame) ≠ [] ∧
    shoulder_width Wlive = some 100 ∧
    all_scores_ok Wlive (requiredNames (rolesOf (resolve_hand "right"))) 0.30 = [] ∧
    |h_dist Wlive (rolesOf (resolve_hand "right")) 100 -
      h_dist Wlive (rolesOf (resolve_hand "right")) 100| ≤ 0.20 ∧
    msg_pos_ref ∉ (ruleLists Wlive Wlive (rolesOf (resolve_hand "right")) 100).1 := by
  have hr : resolve_hand "right" = false := by decide
  rw [hr]
  refine ⟨⟨100, Wlive_shoulder_width, Wlive_conf, by norm_num,
    by rw [hr]; exact Wlive_gate3_ok⟩, by simp [Wlive], Wlive_shoulder_width,
    Wlive_conf030, by simp; norm_num, ?_⟩
  have h9 : rule9_ref Wlive Wlive (rolesOf false) 100 = ([], []) := by
    rw [rule9_runs Wlive Wlive (rolesOf false) 100 100 (by simp [Wlive])
      Wlive_shoulder_width Wlive_conf030]
    rw [if_neg (by simp; norm_num)]
  intro hm
  simp only [ruleLists, List.mem_append] at hm
  rcases hm with (((((((h | h) | h) | h) | h) | h) | h) | h) | h
  · exact absurd (rule1_pos_sub _ _ _ _ h) (by decide)
  · exact absurd (rule2_pos_sub _ _ _ _ h) (by decide)
  · exact absurd (rule3_pos_sub _ _ _ _ h) (by decide)
  · exact absurd (rule4_pos_sub _ _ _ _ h) (by decide)
  · exact absurd (rule5_pos_sub _ _ _ h) (by decide)
  · exact absurd (rule6_pos_sub _ _ _ h) (by decide)
  · exact absurd (rule7_pos_sub _ _ _ _ h) (by decide)
  · exact absurd (rule8_pos_sub _ _ h) (by decide)
  · rw [h9] at h
    simp at h

/-- Witness for the amended C3: a reference frame 0.40 shoulder-widths looser
than the live frame makes the positive fire. -/
theorem C3_witness :
    msg_pos_ref ∈ (ruleLists Wlive Wref (rolesOf (resolve_hand "right")) 100).1 := by
  have hr : resolve_hand "right" = false := by decide
  apply (C3_reference_match_amended "right" Wlive Wref 100 100 Wlive_shoulder_width
    Wlive_conf (by norm_num) (by rw [hr]; exact Wlive_gate3_ok) (by simp [Wref])
    (Wref_shoulder_width) (by rw [hr]; exact Wref_conf030)).2.1.mpr
  rw [hr, Wlive_h_dist, Wref_h_dist]
  norm_num

theorem swapName_invol (n : String) : swapName (swapName n) = n := by
  by_cases h1 : n = "left_shoulder"
  · subst h1; decide
  by_cases h2 : n = "right_shoulder"
  · subst h2; decide
  by_cases h3 : n = "left_elbow"
  · subst h3; decide
  by_cases h4 : n = "right_elbow"
  · subst h4; decide
  by_cases h5 : n = "left_wrist"
  · subst h5; decide
  by_cases h6 : n = "right_wrist"
  · subst h6; decide
  by_cases h7 : n = "left_eye"
  · subst h7; decide
  by_cases h8 : n = "right_eye"
  · subst h8; decide
  by_cases h9 : n = "left_ear"
  · subst h9; decide
  by_cases h10 : n = "right_ear"
  · subst h10; decide
  by_cases h11 : n = "left_hip"
  · subst h11; decide
  by_cases h12 : n = "right_hip"
  · subst h12; decide
  by_cases h13 : n = "left_knee"
  · subst h13; decide
  by_cases h14 : n = "right_knee"
  · subst h14; decide
  by_cases h15 : n = "left_ankle"
  · subst h15; decide
  by_cases h16 : n = "right_ankle"
  · subst h16; decide
  have hn : swapName n = n := by
    unfold swapName
    rw [if_neg h1, if_neg h2, if_neg h3, if_neg h4, if_neg h5, if_neg h6, if_neg h7, if_neg h8, if_neg h9, if_neg h10, if_neg h11, if_neg h12, if_neg h13, if_neg h14, if_neg h15, if_neg h16]
  rw [hn, hn]

theorem kpLookup_swapFrame (m : Frame) (n : String) :
    kpLookup (swapFrame m) n = kpLookup m (swapName n) := by
  induction m with
  | nil => rfl
  | cons p rest ih =>
    obtain ⟨k, v⟩ := p
    show kpLookup ((swapName k, v) :: swapFrame rest) n = _
    unfold kpLookup
    rw [ih]
    cases kpLookup rest (swapName n) with
    | some r => rfl
    | none =>
      by_cases hk : k = swapName n
      · rw [if_pos hk, if_pos (by rw [hk, swapName_invol])]
      · rw [if_neg hk, if_neg (fun hc => hk (by rw [← hc, swapName_invol]))]

theorem kget_swapFrame (m : Frame) (n : String) :
    kget (swapFrame m) (swapName n) = kget m n := by
  unfold kget
  rw [kpLookup_swapFrame, swapName_invol]

theorem score_ok_swapFrame (m : Frame) (n : String) (s : ℚ) :
    score_ok (swapFrame m) (swapName n) s = score_ok m n s := by
  unfold score_ok
  rw [kpLookup_swapFrame, swapName_invol]

theorem all_scores_ok_swapFrame (m : Frame) (names : List String) (s : ℚ) :
    all_scores_ok (swapFrame m) (names.map swapName) s =
      (all_scores_ok m names s).map swapName := by
  induction names with
  | nil => rfl
  | cons a rest ih =>
    show all_scores_ok (swapFrame m) (swapName a :: rest.map swapName) s = _
    unfold all_scores_ok
    rw [score_ok_swapFrame, ih]
    by_cases hs : score_ok m a s = true
    · rw [if_pos hs, if_pos hs]
    · rw [if_neg hs, if_neg hs]
      rfl

theorem shoulder_width_swapFrame (m : Frame) :
    shoulder_width (swapFrame m) = shoulder_width m := by
  have hls : kpLookup (swapFrame m) "left_shoulder" = kpLookup m "right_shoulder" := by
    rw [kpLookup_swapFrame, show swapName "left_shoulder" = "right_shoulder" from by decide]
  have hrs : kpLookup (swapFrame m) "right_shoulder" = kpLookup m "left_shoulder" := by
    rw [kpLookup_swapFrame, show swapName "right_shoulder" = "left_shoulder" from by decide]
  unfold shoulder_width
  rw [hls, hrs]
  cases kpLookup m "right_shoulder" with
  | none => cases kpLookup m "left_shoulder" <;> rfl
  | some r =>
    cases kpLookup m "left_shoulder" with
    | none => rfl
    | some l =>
      dsimp only
      rw [abs_sub_comm]

theorem requiredNames_swapRoles (R : Roles) :
    requiredNames (swapRoles R) = (requiredNames R).map swapName := rfl

theorem kget_swapRoles_back_sh (m : Frame) (R : Roles) :
    kget (swapFrame m) (swapRoles R).back_sh = kget m R.back_sh := kget_swapFrame m R.back_sh

theorem kget_swapRoles_back_el (m : Frame) (R : Roles) :
    kget (swapFrame m) (swapRoles R).back_el = kget m R.back_el := kget_swapFrame m R.back_el

theorem kget_swapRoles_back_wr (m : Frame) (R : Roles) :
    kget (swapFrame m) (swapRoles R).back_wr = kget m R.back_wr := kget_swapFrame m R.back_wr

theorem kget_swapRoles_front_sh (m : Frame) (R : Roles) :
    kget (swapFrame m) (swapRoles R).front_sh = kget m R.front_sh := kget_swapFrame m R.front_sh

theorem kget_swapRoles_front_el (m : Frame) (R : Roles) :
    kget (swapFrame m) (swapRoles R).front_el = kget m R.front_el := kget_swapFrame m R.front_el

theorem kget_swapRoles_front_wr (m : Frame) (R : Roles) :
    kget (swapFrame m) (swapRoles R).front_wr = kget m R.front_wr := kget_swapFrame m R.front_wr

theorem hands_x_swapFrame (m : Frame) (R : Roles) :
    hands_x (swapFrame m) (swapRoles R) = hands_x m R := by
  unfold hands_x
  rw [kget_swapRoles_back_wr, kget_swapRoles_front_wr]

theorem hands_y_swapFrame (m : Frame) (R : Roles) :
    hands_y (swapFrame m) (swapRoles R) = hands_y m R := by
  unfold hands_y
  rw [kget_swapRoles_back_wr, kget_swapRoles_front_wr]

theorem hand_to_back_sh_swapFrame (m : Frame) (R : Roles) (sw : ℚ) :
    hand_to_back_sh (swapFrame m) (swapRoles R) sw = hand_to_back_sh m R sw := by
  unfold hand_to_back_sh
  rw [hands_x_swapFrame, hands_y_swapFrame, kget_swapRoles_back_sh]

theorem gate3_exceeds_swapFrame (m : Frame) (R : Roles) (sw : ℚ) :
    gate3_exceeds (swapFrame m) (swapRoles R) sw = gate3_exceeds m R sw := by
  unfold gate3_exceeds
  rw [hand_to_back_sh_swapFrame]

theorem h_dist_swapFrame (m : Frame) (R : Roles) (sw : ℚ) :
    h_dist (swapFrame m) (swapRoles R) sw = h_dist m R sw := by
  unfold h_dist
  rw [hands_x_swapFrame, hands_y_swapFrame, kget_swapRoles_back_sh]

theorem angle_swapFrame (m : Frame) (a b c : String) :
    angle (swapFrame m) (swapName a) (swapName b) (swapName c) = angle m a b c := by
  unfold angle
  rw [kget_swapFrame, kget_swapFrame, kget_swapFrame]

theorem rule0_swap (live : Frame) (R : Roles) :
    rule0_elbow_vis (swapFrame live) (swapRoles R) = rule0_elbow_vis live R := by
  unfold rule0_elbow_vis
  rw [show [(swapRoles R).front_el, (swapRoles R).back_el] =
      [R.front_el, R.back_el].map swapName from rfl, all_scores_ok_swapFrame]
  by_cases h : all_scores_ok live [R.front_el, R.back_el] 0.30 = []
  · simp [h]
  · rw [if_pos (by simpa using h), if_pos h]

theorem rule1_swap (live : Frame) (R : Roles) (sw : ℚ) :
    rule1_grip (swapFrame live) (swapRoles R) sw = rule1_grip live R sw := by
  unfold rule1_grip
  rw [kget_swapRoles_back_wr, kget_swapRoles_front_wr]

theorem rule2_swap (live : Frame) (R : Roles) (sw : ℚ) :
    rule2_hand_set (swapFrame live) (swapRoles R) sw = rule2_hand_set live R sw := by
  unfold rule2_hand_set
  rw [hand_to_back_sh_swapFrame]

theorem rule3_swap (live : Frame) (R : Roles) (sw : ℚ) :
    rule3_drift (swapFrame live) (swapRoles R) sw = rule3_drift live R sw := by
  unfold rule3_drift
  rw [hands_x_swapFrame,
      show kget (swapFrame live) "left_shoulder" = kget live "right_shoulder" by
        rw [show ("left_shoulder" : String) = swapName "right_shoulder" from by decide,
          kget_swapFrame],
      show kget (swapFrame live) "right_shoulder" = kget live "left_shoulder" by
        rw [show ("right_shoulder" : String) = swapName "left_shoulder" from by decide,
          kget_swapFrame],
      add_comm (kget live "right_shoulder").x (kget live "left_shoulder").x]

theorem rule4_swap (live : Frame) (R : Roles) (sw : ℚ) :
    rule4_slot (swapFrame live) (swapRoles R) sw = rule4_slot live R sw := by
  unfold rule4_slot
  rw [show (swapRoles R).back_el = swapName R.back_el from rfl, score_ok_swapFrame,
      kget_swapRoles_back_sh, kget_swapFrame live R.back_el]

theorem rule5_swap (live : Frame) (R : Roles) :
    rule5_back_arm (swapFrame live) (swapRoles R) = rule5_back_arm live R := by
  unfold rule5_back_arm
  rw [show (swapRoles R).back_el = swapName R.back_el from rfl, score_ok_swapFrame,
      show (swapRoles R).back_sh = swapName R.back_sh from rfl,
      show (swapRoles R).back_wr = swapName R.back_wr from rfl, angle_swapFrame]

theorem rule6_swap (live : Frame) (R : Roles) :
    rule6_front_arm (swapFrame live) (swapRoles R) = rule6_front_arm live R := by
  unfold rule6_front_arm
  rw [show (swapRoles R).front_el = swapName R.front_el from rfl, score_ok_swapFrame,
      show (swapRoles R).front_sh = swapName R.front_sh from rfl,
      show (swapRoles R).front_wr = swapName R.front_wr from rfl, angle_swapFrame]

theorem rule7_swap (live : Frame) (R : Roles) (sw : ℚ) :
    rule7_triangle (swapFrame live) (swapRoles R) sw = rule7_triangle live R sw := by
  unfold rule7_triangle
  rw [show (swapRoles R).back_el = swapName R.back_el from rfl, score_ok_swapFrame,
      kget_swapFrame live R.back_el, kget_swapRoles_back_sh]

theorem rule8_swap (live : Frame) :
    rule8_level (swapFrame live) = rule8_level live := by
  simp only [rule8_level]
  rw [show kget (swapFrame live) "left_shoulder" = kget live "right_shoulder" by
        rw [show ("left_shoulder" : String) = swapName "right_shoulder" from by decide,
          kget_swapFrame],
      show kget (swapFrame live) "right_shoulder" = kget live "left_shoulder" by
        rw [show ("right_shoulder" : String) = swapName "left_shoulder" from by decide,
          kget_swapFrame],
      abs_sub_comm]

theorem rule9_swap (live ref : Frame) (R : Roles) (sw : ℚ) :
    rule9_ref (swapFrame live) (swapFrame ref) (swapRoles R) sw = rule9_ref live ref R sw := by
  cases ref with
  | nil => rfl
  | cons p rest =>
    rw [show swapFrame (p :: rest) = (swapName p.1, p.2) :: swapFrame rest from rfl]
    simp only [rule9_ref]
    rw [show ((swapName p.1, p.2) :: swapFrame rest) = swapFrame (p :: rest) from rfl,
        shoulder_width_swapFrame]
    cases hsw : shoulder_width (p :: rest) with
    | none => rfl
    | some refsw =>
      dsimp only
      rw [requiredNames_swapRoles, all_scores_ok_swapFrame]
      by_cases hok : all_scores_ok (p :: rest) (requiredNames R) 0.30 = []
      · rw [hok]
        simp only [List.map_nil]
        rw [if_pos trivial, if_pos trivial, h_dist_swapFrame live R sw,
            h_dist_swapFrame (p :: rest) R refsw]
      · rw [if_neg (by simpa using hok), if_neg hok]

theorem ruleLists_swap (live ref : Frame) (R : Roles) (sw : ℚ) :
    ruleLists (swapFrame live) (swapFrame ref) (swapRoles R) sw = ruleLists live ref R sw := by
  simp only [ruleLists]
  rw [rule0_swap, rule1_swap, rule2_swap, rule3_swap, rule4_swap, rule5_swap, rule6_swap,
      rule7_swap, rule8_swap, rule9_swap]

/-- C6: swapping all `left_*` ↔ `right_*` keypoint names in both the live and
the reference frame while flipping handedness from "right" to "left" yields
the identical gating decision and identical raw rule outcome (the same
positives and improvements lists, before rewrite). -/
theorem C6_mirror_symmetry (live ref : Frame) :
    analyzeCore "left" (swapFrame live) (swapFrame ref) = analyzeCore "right" live ref := by
  unfold analyzeCore
  rw [show resolve_hand "left" = true from by decide,
      show resolve_hand "right" = false from by decide,
      show rolesOf true = swapRoles (rolesOf false) from by decide,
      shoulder_width_swapFrame]
  cases hsw : shoulder_width live with
  | none => rfl
  | some w =>
    dsimp only
    rw [requiredNames_swapRoles, all_scores_ok_swapFrame]
    by_cases hconf : all_scores_ok live (requiredNames (rolesOf false)) 0.35 = []
    · rw [hconf]
      simp only [List.map_nil]
      rw [if_neg (show ¬ (([] : List String) ≠ []) by simp)]
      by_cases hw : w < 40
      · rw [if_pos hw, if_neg (show ¬ (([] : List String) ≠ []) by simp), if_pos hw]
      · rw [if_neg hw, gate3_exceeds_swapFrame]
        by_cases hg3 : gate3_exceeds live (rolesOf false) w
        · rw [if_pos hg3, if_neg (show ¬ (([] : List String) ≠ []) by simp),
            if_neg hw, if_pos hg3]
        · rw [if_neg hg3, ruleLists_swap,
            if_neg (show ¬ (([] : List String) ≠ []) by simp), if_neg hw, if_neg hg3]
    · rw [if_pos (by simpa using hconf), if_pos hconf]

theorem kpLookup_scaleFrame (k : ℚ) (m : Frame) (n : String) :
    kpLookup (scaleFrame k m) n = (kpLookup m n).map (scaleKP k) := by
  induction m with
  | nil => rfl
  | cons p rest ih =>
    obtain ⟨nm, v⟩ := p
    show kpLookup ((nm, scaleKP k v) :: scaleFrame k rest) n = _
    unfold kpLookup
    rw [ih]
    cases kpLookup rest n with
    | some r => rfl
    | none =>
      by_cases hk : nm = n
      · rw [if_pos hk, if_pos hk]
        rfl
      · rw [if_neg hk, if_neg hk]
        rfl

theorem kget_scaleFrame (k : ℚ) (m : Frame) (n : String) :
    kget (scaleFrame k m) n = scaleKP k (kget m n) := by
  unfold kget
  rw [kpLookup_scaleFrame]
  cases kpLookup m n with
  | none =>
    show (⟨0, 0, 0⟩ : KP) = scaleKP k ⟨0, 0, 0⟩
    simp [scaleKP]
  | some kp => rfl

theorem score_ok_scaleFrame (k : ℚ) (m : Frame) (n : String) (s : ℚ) :
    score_ok (scaleFrame k m) n s = score_ok m n s := by
  unfold score_ok
  rw [kpLookup_scaleFrame]
  cases kpLookup m n <;> rfl

theorem all_scores_ok_scaleFrame (k : ℚ) (m : Frame) (names : List String) (s : ℚ) :
    all_scores_ok (scaleFrame k m) names s = all_scores_ok m names s := by
  induction names with
  | nil => rfl
  | cons a rest ih =>
    unfold all_scores_ok
    rw [score_ok_scaleFrame, ih]

theorem hypot_scale (k dx dy : ℚ) (hk : 0 ≤ k) :
    hypot (k * dx) (k * dy) = (k : ℝ) * hypot dx dy := by
  unfold hypot
  push_cast
  rw [show ((k : ℝ) * dx) ^ 2 + ((k : ℝ) * dy) ^ 2 = (k : ℝ) ^ 2 * ((dx : ℝ) ^ 2 + (dy : ℝ) ^ 2) by
    ring]
  rw [Real.sqrt_mul (sq_nonneg _), Real.sqrt_sq (by exact_mod_cast hk)]

theorem norm_dist_scale (k dx dy sw : ℚ) (hk : 0 < k) :
    norm_dist (k * dx) (k * dy) (k * sw) = norm_dist dx dy sw := by
  unfold norm_dist
  by_cases hs : sw = 0
  · rw [if_pos (by rw [hs, mul_zero]), if_pos hs]
  · rw [if_neg (mul_ne_zero (ne_of_gt hk) hs), if_neg hs,
      hypot_scale k dx dy (le_of_lt hk)]
    push_cast
    rw [mul_div_mul_left _ _ (show (k : ℝ) ≠ 0 by exact_mod_cast ne_of_gt hk)]

theorem calculate_angle_scale (k ax ay bx b_y cx cy : ℚ) (hk : 0 < k) :
    calculate_angle (k * ax) (k * ay) (k * bx) (k * b_y) (k * cx) (k * cy) =
      calculate_angle ax ay bx b_y cx cy := by
  simp only [calculate_angle]
  rw [show k * ax - k * bx = k * (ax - bx) by ring,
      show k * ay - k * b_y = k * (ay - b_y) by ring,
      show k * cx - k * bx = k * (cx - bx) by ring,
      show k * cy - k * b_y = k * (cy - b_y) by ring,
      hypot_scale k (ax - bx) (ay - b_y) (le_of_lt hk),
      hypot_scale k (cx - bx) (cy - b_y) (le_of_lt hk)]
  have hk0 : (k : ℝ) ≠ 0 := by exact_mod_cast ne_of_gt hk
  have hkpos : (0 : ℝ) < (k : ℝ) := by exact_mod_cast hk
  by_cases h : hypot (ax - bx) (ay - b_y) = 0 ∨ hypot (cx - bx) (cy - b_y) = 0
  · rw [if_pos (by rcases h with h | h <;> [exact Or.inl (by rw [h, mul_zero])
      ; exact Or.inr (by rw [h, mul_zero])]), if_pos h]
  · rw [not_or] at h
    rw [if_neg (by
        rw [not_or]
        exact ⟨mul_ne_zero hk0 h.1, mul_ne_zero hk0 h.2⟩),
      if_neg (by rw [not_or]; exact h)]
    have hdot : (k * (ax - bx) * (k * (cx - bx)) + k * (ay - b_y) * (k * (cy - b_y)) : ℚ) =
        k ^ 2 * ((ax - bx) * (cx - bx) + (ay - b_y) * (cy - b_y)) := by ring
    rw [hdot]
    have hden : (k : ℝ) * hypot (ax - bx) (ay - b_y) * ((k : ℝ) * hypot (cx - bx) (cy - b_y)) =
        (k : ℝ) ^ 2 * (hypot (ax - bx) (ay - b_y) * hypot (cx - bx) (cy - b_y)) := by ring
    rw [hden]
    have hfrac : ((k ^ 2 * ((ax - bx) * (cx - bx) + (ay - b_y) * (cy - b_y)) : ℚ) : ℝ) /
        ((k : ℝ) ^ 2 * (hypot (ax - bx) (ay - b_y) * hypot (cx - bx) (cy - b_y))) =
        (((ax - bx) * (cx - bx) + (ay - b_y) * (cy - b_y) : ℚ) : ℝ) /
        (hypot (ax - bx) (ay - b_y) * hypot (cx - bx) (cy - b_y)) := by
      push_cast
      rw [mul_div_mul_left _ _ (pow_ne_zero 2 hk0)]
    rw [hfrac]

theorem hands_x_scaleFrame (k : ℚ) (m : Frame) (R : Roles) :
    hands_x (scaleFrame k m) R = k * hands_x m R := by
  unfold hands_x
  rw [kget_scaleFrame, kget_scaleFrame]
  show (k * (kget m R.back_wr).x + k * (kget m R.front_wr).x) / 2 = _
  ring

theorem hands_y_scaleFrame (k : ℚ) (m : Frame) (R : Roles) :
    hands_y (scaleFrame k m) R = k * hands_y m R := by
  unfold hands_y
  rw [kget_scaleFrame, kget_scaleFrame]
  show (k * (kget m R.back_wr).y + k * (kget m R.front_wr).y) / 2 = _
  ring

theorem hand_to_back_sh_scaleFrame (k : ℚ) (m : Frame) (R : Roles) (sw : ℚ) (hk : 0 < k) :
    hand_to_back_sh (scaleFrame k m) R (k * sw) = hand_to_back_sh m R sw := by
  unfold hand_to_back_sh
  rw [hands_x_scaleFrame, hands_y_scaleFrame, kget_scaleFrame]
  rw [show k * hands_x m R - (scaleKP k (kget m R.back_sh)).x =
      k * (hands_x m R - (kget m R.back_sh).x) by simp [scaleKP]; ring]
  rw [show k * hands_y m R - (scaleKP k (kget m R.back_sh)).y =
      k * (hands_y m R - (kget m R.back_sh).y) by simp [scaleKP]; ring]
  exact norm_dist_scale k _ _ sw hk

theorem h_dist_scaleFrame (k : ℚ) (m : Frame) (R : Roles) (sw : ℚ) (hk : 0 < k) :
    h_dist (scaleFrame k m) R (k * sw) = h_dist m R sw := by
  unfold h_dist
  rw [hands_x_scaleFrame, hands_y_scaleFrame, kget_scaleFrame]
  rw [show k * hands_x m R - (scaleKP k (kget m R.back_sh)).x =
      k * (hands_x m R - (kget m R.back_sh).x) by simp [scaleKP]; ring]
  rw [show k * hands_y m R - (scaleKP k (kget m R.back_sh)).y =
      k * (hands_y m R - (kget m R.back_sh).y) by simp [scaleKP]; ring]
  rw [hypot_scale k _ _ (le_of_lt hk)]
  push_cast
  rw [mul_div_mul_left _ _ (show (k : ℝ) ≠ 0 by exact_mod_cast ne_of_gt hk)]

theorem rule1_scale (k : ℚ) (live : Frame) (R : Roles) (sw : ℚ) (hk : 0 < k) :
    rule1_grip (scaleFrame k live) R (k * sw) = rule1_grip live R sw := by
  simp only [rule1_grip]
  rw [kget_scaleFrame, kget_scaleFrame]
  rw [show (scaleKP k (kget live R.back_wr)).x - (scaleKP k (kget live R.front_wr)).x =
      k * ((kget live R.back_wr).x - (kget live R.front_wr).x) by simp [scaleKP]; ring]
  rw [show (scaleKP k (kget live R.back_wr)).y - (scaleKP k (kget live R.front_wr)).y =
      k * ((kget live R.back_wr).y - (kget live R.front_wr).y) by simp [scaleKP]; ring]
  rw [norm_dist_scale _ _ _ _ hk]

theorem rule2_scale (k : ℚ) (live : Frame) (R : Roles) (sw : ℚ) (hk : 0 < k) :
    rule2_hand_set (scaleFrame k live) R (k * sw) = rule2_hand_set live R sw := by
  simp only [rule2_hand_set]
  rw [hand_to_back_sh_scaleFrame _ _ _ _ hk]

theorem rule3_scale (k : ℚ) (live : Frame) (R : Roles) (sw : ℚ) (hk : 0 < k) :
    rule3_drift (scaleFrame k live) R (k * sw) = rule3_drift live R sw := by
  simp only [rule3_drift]
  rw [hands_x_scaleFrame, kget_scaleFrame, kget_scaleFrame]
  rw [show k * hands_x live R -
      ((scaleKP k (kget live "left_shoulder")).x + (scaleKP k (kget live "right_shoulder")).x) / 2 =
      k * (hands_x live R -
        ((kget live "left_shoulder").x + (kget live "right_shoulder").x) / 2) by
    simp [scaleKP]; ring]
  rw [abs_mul, abs_of_pos hk]
  rw [mul_div_mul_left _ _ (ne_of_gt hk)]

theorem rule4_scale (k : ℚ) (live : Frame) (R : Roles) (sw : ℚ) (hk : 0 < k) :
    rule4_slot (scaleFrame k live) R (k * sw) = rule4_slot live R sw := by
  simp only [rule4_slot]
  rw [score_ok_scaleFrame, kget_scaleFrame, kget_scaleFrame]
  rw [show (scaleKP k (kget live R.back_sh)).y - (scaleKP k (kget live R.back_el)).y =
      k * ((kget live R.back_sh).y - (kget live R.back_el).y) by simp [scaleKP]; ring]
  rw [mul_div_mul_left _ _ (ne_of_gt hk)]

theorem angle_scaleFrame (k : ℚ) (m : Frame) (a b c : String) (hk : 0 < k) :
    angle (scaleFrame k m) a b c = angle m a b c := by
  unfold angle
  rw [kget_scaleFrame, kget_scaleFrame, kget_scaleFrame]
  show calculate_angle (k * (kget m a).x) (k * (kget m a).y) (k * (kget m b).x)
    (k * (kget m b).y) (k * (kget m c).x) (k * (kget m c).y) = _
  exact calculate_angle_scale k _ _ _ _ _ _ hk

theorem rule5_scale (k : ℚ) (live : Frame) (R : Roles) (hk : 0 < k) :
    rule5_back_arm (scaleFrame k live) R = rule5_back_arm live R := by
  simp only [rule5_back_arm]
  rw [score_ok_scaleFrame, angle_scaleFrame _ _ _ _ _ hk]

theorem rule6_scale (k : ℚ) (live : Frame) (R : Roles) (hk : 0 < k) :
    rule6_front_arm (scaleFrame k live) R = rule6_front_arm live R := by
  simp only [rule6_front_arm]
  rw [score_ok_scaleFrame, angle_scaleFrame _ _ _ _ _ hk]

theorem rule7_scale (k : ℚ) (live : Frame) (R : Roles) (sw : ℚ) (hk : 0 < k) :
    rule7_triangle (scaleFrame k live) R (k * sw) = rule7_triangle live R sw := by
  simp only [rule7_triangle]
  rw [score_ok_scaleFrame, kget_scaleFrame, kget_scaleFrame]
  rw [show (scaleKP k (kget live R.back_el)).x - (scaleKP k (kget live R.back_sh)).x =
      k * ((kget live R.back_el).x - (kget live R.back_sh).x) by simp [scaleKP]; ring]
  rw [show (scaleKP k (kget live R.back_el)).y - (scaleKP k (kget live R.back_sh)).y =
      k * ((kget live R.back_el).y - (kget live R.back_sh).y) by simp [scaleKP]; ring]
  rw [norm_dist_scale _ _ _ _ hk]

theorem rule9_scale (k : ℚ) (live ref : Frame) (R : Roles) (sw : ℚ) (hk : 0 < k) :
    rule9_ref (scaleFrame k live) ref R (k * sw) = rule9_ref live ref R sw := by
  cases ref with
  | nil => rfl
  | cons p rest =>
    simp only [rule9_ref]
    cases shoulder_width (p :: rest) with
    | none => rfl
    | some refsw =>
      dsimp only
      rw [h_dist_scaleFrame _ _ _ _ hk]

theorem gatesPass_Wlive : gatesPass "right" Wlive := by
  have hr : resolve_hand "right" = false := by decide
  exact ⟨100, Wlive_shoulder_width, Wlive_conf, by norm_num,
    by rw [hr]; exact Wlive_gate3_ok⟩

theorem s2Wlive_shoulder_width : shoulder_width (scaleFrame 2 Wlive) = some 200 := by
  simp +decide [shoulder_width, scaleFrame, scaleKP, Wlive, kpLookup]
  norm_num

theorem s2Wlive_conf :
    all_scores_ok (scaleFrame 2 Wlive) (requiredNames (rolesOf (resolve_hand "right"))) 0.35 = [] := by
  rw [show resolve_hand "right" = false by decide]
  simp only [rolesOf, if_false, Bool.false_eq_true, requiredNames]
  simp [all_scores_ok, score_ok, kpLookup, scaleFrame, scaleKP, Wlive]
  norm_num

theorem s2Wlive_h2bs :
    hand_to_back_sh (scaleFrame 2 Wlive) (rolesOf false) 200 = some ((50 : ℝ) / (200 : ℝ)) := by
  unfold hand_to_back_sh
  rw [show hands_x (scaleFrame 2 Wlive) (rolesOf false) -
      (kget (scaleFrame 2 Wlive) (rolesOf false).back_sh).x = 50 by
    simp +decide [hands_x, kget, kpLookup, scaleFrame, scaleKP, Wlive, rolesOf]; norm_num]
  rw [show hands_y (scaleFrame 2 Wlive) (rolesOf false) -
      (kget (scaleFrame 2 Wlive) (rolesOf false).back_sh).y = 0 by
    simp +decide [hands_y, kget, kpLookup, scaleFrame, scaleKP, Wlive, rolesOf]]
  rw [norm_dist_eval 50 0 200 50 (by norm_num) (by norm_num) (by norm_num)]
  norm_num

theorem s2Wlive_gate3_ok : ¬ gate3_exceeds (scaleFrame 2 Wlive) (rolesOf false) 200 := by
  unfold gate3_exceeds
  rw [s2Wlive_h2bs]
  norm_num

theorem gatesPass_s2Wlive : gatesPass "right" (scaleFrame 2 Wlive) := by
  have hr : resolve_hand "right" = false := by decide
  exact ⟨200, s2Wlive_shoulder_width, s2Wlive_conf, by norm_num,
    by rw [hr]; exact s2Wlive_gate3_ok⟩

theorem Wtilt_shoulder_width : shoulder_width Wtilt = some 100 := by
  simp +decide [shoulder_width, Wtilt, kpLookup]

theorem Wtilt_conf :
    all_scores_ok Wtilt (requiredNames (rolesOf (resolve_hand "right"))) 0.35 = [] := by
  rw [show resolve_hand "right" = false by decide]
  simp only [rolesOf, if_false, Bool.false_eq_true, requiredNames]
  simp [all_scores_ok, score_ok, kpLookup, Wtilt]
  norm_num

theorem Wtilt_h2bs :
    hand_to_back_sh Wtilt (rolesOf false) 100 = some ((25 : ℝ) / (100 : ℝ)) := by
  unfold hand_to_back_sh
  rw [show hands_x Wtilt (rolesOf false) - (kget Wtilt (rolesOf false).back_sh).x = 25 by
    simp +decide [hands_x, kget, kpLookup, Wtilt, rolesOf]; norm_num]
  rw [show hands_y Wtilt (rolesOf false) - (kget Wtilt (rolesOf false).back_sh).y = 0 by
    simp +decide [hands_y, kget, kpLookup, Wtilt, rolesOf]]
  rw [norm_dist_eval 25 0 100 25 (by norm_num) (by norm_num) (by norm_num)]
  norm_num

theorem Wtilt_gate3_ok : ¬ gate3_exceeds Wtilt (rolesOf false) 100 := by
  unfold gate3_exceeds
  rw [Wtilt_h2bs]
  norm_num

theorem gatesPass_Wtilt : gatesPass "right" Wtilt := by
  have hr : resolve_hand "right" = false := by decide
  exact ⟨100, Wtilt_shoulder_width, Wtilt_conf, by norm_num,
    by rw [hr]; exact Wtilt_gate3_ok⟩

theorem s2Wtilt_shoulder_width : shoulder_width (scaleFrame 2 Wtilt) = some 200 := by
  simp +decide [shoulder_width, scaleFrame, scaleKP, Wtilt, kpLookup]
  norm_num

theorem s2Wtilt_conf :
    all_scores_ok (scaleFrame 2 Wtilt) (requiredNames (rolesOf (resolve_hand "right"))) 0.35 = [] := by
  rw [show resolve_hand "right" = false by decide]
  simp only [rolesOf, if_false, Bool.false_eq_true, requiredNames]
  simp [all_scores_ok, score_ok, kpLookup, scaleFrame, scaleKP, Wtilt]
  norm_num

theorem s2Wtilt_h2bs :
    hand_to_back_sh (scaleFrame 2 Wtilt) (rolesOf false) 200 = some ((50 : ℝ) / (200 : ℝ)) := by
  unfold hand_to_back_sh
  rw [show hands_x (scaleFrame 2 Wtilt) (rolesOf false) -
      (kget (scaleFrame 2 Wtilt) (rolesOf false).back_sh).x = 50 by
    simp +decide [hands_x, kget, kpLookup, scaleFrame, scaleKP, Wtilt, rolesOf]; norm_num]
  rw [show hands_y (scaleFrame 2 Wtilt) (rolesOf false) -
      (kget (scaleFrame 2 Wtilt) (rolesOf false).back_sh).y = 0 by
    simp +decide [hands_y, kget, kpLookup, scaleFrame, scaleKP, Wtilt, rolesOf]]
  rw [norm_dist_eval 50 0 200 50 (by norm_num) (by norm_num) (by norm_num)]
  norm_num

theorem s2Wtilt_gate3_ok : ¬ gate3_exceeds (scaleFrame 2 Wtilt) (rolesOf false) 200 := by
  unfold gate3_exceeds
  rw [s2Wtilt_h2bs]
  norm_num

theorem gatesPass_s2Wtilt : gatesPass "right" (scaleFrame 2 Wtilt) := by
  have hr : resolve_hand "right" = false := by decide
  exact ⟨200, s2Wtilt_shoulder_width, s2Wtilt_conf, by norm_num,
    by rw [hr]; exact s2Wtilt_gate3_ok⟩

theorem Wtilt_rule8 : rule8_level Wtilt = ([msg_pos_level], []) := by
  simp only [rule8_level]
  rw [if_pos (by simp +decide [kget, kpLookup, Wtilt])]

theorem s2Wtilt_rule8 : rule8_level (scaleFrame 2 Wtilt) = ([], [msg_imp_level]) := by
  simp only [rule8_level]
  rw [if_neg (by simp +decide [kget, kpLookup, scaleFrame, scaleKP, Wtilt]; norm_num)]

/-- C7: multiplying all live coordinates by a positive constant `k` (scores
unchanged), for any gate-passing input whose scaled version also passes the
gates, leaves every shoulder-width-normalised rule (grip compactness, hand
set, forward drift, back-elbow slot, both arm-bend angle rules, compact
triangle, reference match) unchanged, while rule 8 (shoulder level, raw
25-pixel threshold) can change its outcome under scaling. -/
theorem C7_scale_invariance :
    (∀ (hand : String) (live ref : Frame) (k w : ℚ),
      0 < k → gatesPass hand live → gatesPass hand (scaleFrame k live) →
      shoulder_width live = some w →
      (rule1_grip (scaleFrame k live) (rolesOf (resolve_hand hand)) (k * w) =
        rule1_grip live (rolesOf (resolve_hand hand)) w) ∧
      (rule2_hand_set (scaleFrame k live) (rolesOf (resolve_hand hand)) (k * w) =
        rule2_hand_set live (rolesOf (resolve_hand hand)) w) ∧
      (rule3_drift (scaleFrame k live) (rolesOf (resolve_hand hand)) (k * w) =
        rule3_drift live (rolesOf (resolve_hand hand)) w) ∧
      (rule4_slot (scaleFrame k live) (rolesOf (resolve_hand hand)) (k * w) =
        rule4_slot live (rolesOf (resolve_hand hand)) w) ∧
      (rule5_back_arm (scaleFrame k live) (rolesOf (resolve_hand hand)) =
        rule5_back_arm live (rolesOf (resolve_hand hand))) ∧
      (rule6_front_arm (scaleFrame k live) (rolesOf (resolve_hand hand)) =
        rule6_front_arm live (rolesOf (resolve_hand hand))) ∧
      (rule7_triangle (scaleFrame k live) (rolesOf (resolve_hand hand)) (k * w) =
        rule7_triangle live (rolesOf (resolve_hand hand)) w) ∧
      (rule9_ref (scaleFrame k live) ref (rolesOf (resolve_hand hand)) (k * w) =
        rule9_ref live ref (rolesOf (resolve_hand hand)) w)) ∧
    (∃ (live : Frame) (k : ℚ), 0 < k ∧ gatesPass "right" live ∧
      gatesPass "right" (scaleFrame k live) ∧
      rule8_level (scaleFrame k live) ≠ rule8_level live) := by
  constructor
  · intro hand live ref k w hk _ _ _
    exact ⟨rule1_scale k live _ w hk, rule2_scale k live _ w hk, rule3_scale k live _ w hk,
      rule4_scale k live _ w hk, rule5_scale k live _ hk, rule6_scale k live _ hk,
      rule7_scale k live _ w hk, rule9_scale k live ref _ w hk⟩
  · refine ⟨Wtilt, 2, by norm_num, gatesPass_Wtilt, gatesPass_s2Wtilt, ?_⟩
    rw [s2Wtilt_rule8, Wtilt_rule8]
    simp

/-- Witness for C7 at `Wlive` with `k = 2`: the hypotheses hold and the grip
rule is unchanged under scaling. -/
theorem C7_witness :
    rule1_grip (scaleFrame 2 Wlive) (rolesOf (resolve_hand "right")) (2 * 100) =
      rule1_grip Wlive (rolesOf (resolve_hand "right")) 100 :=
  (C7_scale_invariance.1 "right" Wlive [] 2 100 (by norm_num) gatesPass_Wlive
    gatesPass_s2Wlive Wlive_shoulder_width).1
